import Mathlib

/-!
# Account lockout of the LDAP KDB plugin

A shallow embedding of `src/plugins/kdb/ldap/libkdb_ldap/lockout.c`
(`lookup_lockout_policy`, `locked_check_p`, `krb5_ldap_lockout_check_policy`,
`krb5_ldap_lockout_audit`) and theorems about it, followed by
`kg_make_seed` of `src/lib/gssapi/krb5/util_seed.c` (namespace `UtilSeed`).

Conventions.
* `krb5_timestamp`, `krb5_deltat` and `krb5_error_code` are 32-bit signed
  integers: they are `Int` here and the two additions of the file go through
  `add32`, the 32-bit addition modulo `2^32`.
* `krb5_kvno` (`max_fail`, `fail_auth_count`) and the change mask are unsigned:
  they are `Nat`; the file only compares and ORs them.
* The header constants (`KADM5_*`, `KRB5KDC_ERR_*`, ...) are not part of the
  sources at hand: they are the fields of a parameter `Headers`.
* The helpers the file calls but does not define answer through a `World`,
  which fixes what each of them returns during one call; every call made is
  recorded, in order, in a list of `Call`s.
-/

namespace Lockout

/-! ## Machine integers -/

/-- The value of a 32-bit signed integer holding `x` modulo `2^32`. -/
def wrap32 (x : Int) : Int := (x + 2147483648) % 4294967296 - 2147483648

/-- The 32-bit signed addition `a + b` of the C code, wrapping modulo `2^32`. -/
def add32 (a b : Int) : Int := wrap32 (a + b)

/-! ## Header constants -/

/-- The constants `lockout.c` takes from headers that are not among the sources. -/
structure Headers where
  KRB5KDC_ERR_CLIENT_REVOKED : Int
  KRB5KDC_ERR_PREAUTH_FAILED : Int
  KRB5KRB_AP_ERR_BAD_INTEGRITY : Int
  KRB5_KDB_REQUIRES_PRE_AUTH : Nat
  KADM5_LOCKED_TIME : Nat
  KADM5_LAST_SUCCESS : Nat
  KADM5_LAST_FAILED : Nat
  KADM5_FAIL_AUTH_COUNT : Nat
  KADM5_FAIL_AUTH_COUNT_INCREMENT : Nat
deriving Repr, DecidableEq

/-- What any set of headers the file compiles against provides: the error codes
differ from the success code `0` (the two failure codes are `case` labels next
to `case 0`), and the five change-mask flags are non-zero and share no bit. -/
def Headers.WellFormed (K : Headers) : Prop :=
  K.KRB5KDC_ERR_CLIENT_REVOKED ≠ 0 ∧
  K.KRB5KDC_ERR_PREAUTH_FAILED ≠ 0 ∧
  K.KRB5KRB_AP_ERR_BAD_INTEGRITY ≠ 0 ∧
  K.KADM5_LOCKED_TIME ≠ 0 ∧
  K.KADM5_LAST_SUCCESS ≠ 0 ∧
  K.KADM5_LAST_FAILED ≠ 0 ∧
  K.KADM5_FAIL_AUTH_COUNT ≠ 0 ∧
  K.KADM5_FAIL_AUTH_COUNT_INCREMENT ≠ 0 ∧
  K.KADM5_LAST_SUCCESS &&& K.KADM5_LOCKED_TIME = 0 ∧
  K.KADM5_LAST_FAILED &&& K.KADM5_LOCKED_TIME = 0 ∧
  K.KADM5_FAIL_AUTH_COUNT &&& K.KADM5_LOCKED_TIME = 0 ∧
  K.KADM5_FAIL_AUTH_COUNT_INCREMENT &&& K.KADM5_LOCKED_TIME = 0 ∧
  K.KADM5_LAST_SUCCESS &&& K.KADM5_LAST_FAILED = 0 ∧
  K.KADM5_LAST_SUCCESS &&& K.KADM5_FAIL_AUTH_COUNT = 0 ∧
  K.KADM5_LAST_SUCCESS &&& K.KADM5_FAIL_AUTH_COUNT_INCREMENT = 0 ∧
  K.KADM5_LAST_FAILED &&& K.KADM5_FAIL_AUTH_COUNT = 0 ∧
  K.KADM5_LAST_FAILED &&& K.KADM5_FAIL_AUTH_COUNT_INCREMENT = 0 ∧
  K.KADM5_FAIL_AUTH_COUNT &&& K.KADM5_FAIL_AUTH_COUNT_INCREMENT = 0

instance (K : Headers) : Decidable K.WellFormed := by
  unfold Headers.WellFormed
  infer_instance

/-- One well-formed set of values, for concrete runs: the codes of the krb5 error
table, the `KADM5_*` bits of the kadm5 principal mask, and free bits of that
mask for the two flags the LDAP plugin adds. No theorem depends on these
values beyond `Headers.WellFormed`. -/
def mitHeaders : Headers where
  KRB5KDC_ERR_CLIENT_REVOKED := -1765328366
  KRB5KDC_ERR_PREAUTH_FAILED := -1765328360
  KRB5KRB_AP_ERR_BAD_INTEGRITY := -1765328353
  KRB5_KDB_REQUIRES_PRE_AUTH := 128
  KADM5_LOCKED_TIME := 1048576
  KADM5_LAST_SUCCESS := 16384
  KADM5_LAST_FAILED := 32768
  KADM5_FAIL_AUTH_COUNT := 65536
  KADM5_FAIL_AUTH_COUNT_INCREMENT := 524288

/-! ## Data -/

/-- The fields of `krb5_db_entry` the file reads or writes, together with the
lock time the entry carries (the value `krb5_dbe_lookup_locked_time` reads and
`krb5_dbe_update_locked_time` replaces; `0` is "no lock time"). -/
structure krb5_db_entry where
  attributes : Nat
  fail_auth_count : Nat
  last_failed : Int
  last_success : Int
  mask : Nat
  locked_time : Int
deriving Repr, DecidableEq

/-- The three fields of `osa_policy_ent_rec` the file copies. -/
structure osa_policy_ent_rec where
  pw_max_fail : Nat
  pw_failcnt_interval : Int
  pw_lockout_duration : Int
deriving Repr, DecidableEq

/-- What the helpers that `lockout.c` calls but does not define return during
one call of an entry point (each is called at most once per call). -/
structure World where
  /-- Return code of `krb5_dbe_lookup_locked_time`. -/
  locked_time_code : Int
  /-- Return code of `krb5_dbe_lookup_tl_data` for `KRB5_TL_KADM_DATA`. -/
  tl_data_code : Int
  /-- The `tl_data_length` it leaves in `tl_data`. -/
  tl_data_length : Nat
  /-- Return code of `krb5_lookup_tl_kadm_data`. -/
  kadm_data_code : Int
  /-- The `adb.policy` it decodes; `none` is `NULL`. -/
  adb_policy : Option String
  /-- Return code of `krb5_ldap_get_password_policy`. -/
  policy_code : Int
  /-- The `count` it leaves. -/
  policy_count : Int
  /-- The policy object it hands back (read only when the code is `0` and the count `1`). -/
  policy : osa_policy_ent_rec
  /-- Return code of `krb5_dbe_update_locked_time`. -/
  update_locked_time_code : Int
  /-- Return code of `krb5_ldap_put_principal`. -/
  put_principal_code : Int
deriving Repr, DecidableEq

/-- One call of a helper, as the file issues it. -/
inductive Call where
  | lookup_locked_time
  | lookup_tl_data
  | lookup_tl_kadm_data
  | get_password_policy (name : String)
  | update_locked_time (locked_time : Int)
  | put_principal (entry : krb5_db_entry)
deriving Repr, DecidableEq

/-- The calls that write to the principal: `krb5_dbe_update_locked_time` and
`krb5_ldap_put_principal`. -/
def Call.isWrite : Call → Bool
  | Call.update_locked_time _ => true
  | Call.put_principal _ => true
  | _ => false

/-- The calls that resolve the policy, that is those `lookup_lockout_policy` makes. -/
def Call.isPolicyLookup : Call → Bool
  | Call.lookup_tl_data => true
  | Call.lookup_tl_kadm_data => true
  | Call.get_password_policy _ => true
  | _ => false

/-- How an entry point ends: it returns a `krb5_error_code`, or its `assert` fails. -/
inductive Outcome where
  | returned (code : Int)
  | assertion_failed
deriving Repr, DecidableEq

/-! ## Helpers that are not among the sources -/

/-- Modelled from the spec: `krb5_dbe_lookup_locked_time` is not among the
sources. It is `getLockedTime`: it returns its code and, on success, stores the
lock time of the entry in the out-parameter, which on failure keeps the `0` the
callers initialise it with. -/
def krb5_dbe_lookup_locked_time (w : World) (entry : krb5_db_entry) : Int × Int :=
  if w.locked_time_code = 0 then (0, entry.locked_time) else (w.locked_time_code, 0)

/-- Modelled from the spec: `krb5_dbe_update_locked_time` is not among the
sources. It is `updateLockedTime`: on success the entry carries the new lock
time, on failure the entry is as before. -/
def krb5_dbe_update_locked_time (w : World) (entry : krb5_db_entry) (locked_time : Int) :
    Int × krb5_db_entry :=
  if w.update_locked_time_code = 0 then (0, { entry with locked_time := locked_time })
  else (w.update_locked_time_code, entry)

/-! ## `lockout.c` -/

/-- What `lookup_lockout_policy` returns: its code, its three out-parameters
and the calls it made. -/
structure PolicyResult where
  code : Int
  max_fail : Nat
  failcnt_interval : Int
  lockout_duration : Int
  calls : List Call
deriving Repr, DecidableEq

/-- Lines 44-91. The three out-parameters start at `0`; they are overwritten only
when a policy name is attached and `krb5_ldap_get_password_policy` returns `0`
with a count of `1`. -/
def lookup_lockout_policy (w : World) : PolicyResult :=
  if w.tl_data_code ≠ 0 ∨ w.tl_data_length = 0 then
    ⟨w.tl_data_code, 0, 0, 0, [Call.lookup_tl_data]⟩
  else if w.kadm_data_code ≠ 0 then
    ⟨w.kadm_data_code, 0, 0, 0, [Call.lookup_tl_data, Call.lookup_tl_kadm_data]⟩
  else
    match w.adb_policy with
    | some name =>
      if w.policy_code = 0 ∧ w.policy_count = 1 then
        ⟨0, w.policy.pw_max_fail, w.policy.pw_failcnt_interval, w.policy.pw_lockout_duration,
          [Call.lookup_tl_data, Call.lookup_tl_kadm_data, Call.get_password_policy name]⟩
      else
        ⟨0, 0, 0, 0,
          [Call.lookup_tl_data, Call.lookup_tl_kadm_data, Call.get_password_policy name]⟩
    | none => ⟨0, 0, 0, 0, [Call.lookup_tl_data, Call.lookup_tl_kadm_data]⟩

/-- Lines 94-107. -/
def locked_check_p (stamp locked_time lockout_duration : Int) : Bool :=
  if locked_time = 0 then false
  else if lockout_duration = 0 then true
  else decide (stamp < add32 locked_time lockout_duration)

/-- What `krb5_ldap_lockout_check_policy` returns, and the calls it made. -/
structure CheckResult where
  code : Int
  calls : List Call
deriving Repr, DecidableEq

/-- Lines 109-134. -/
def krb5_ldap_lockout_check_policy (K : Headers) (w : World) (entry : krb5_db_entry)
    (stamp : Int) : CheckResult :=
  let code := (krb5_dbe_lookup_locked_time w entry).1
  let locked_time := (krb5_dbe_lookup_locked_time w entry).2
  if code ≠ 0 ∨ locked_time = 0 then
    ⟨code, [Call.lookup_locked_time]⟩
  else
    let pol := lookup_lockout_policy w
    if pol.code ≠ 0 then
      ⟨pol.code, Call.lookup_locked_time :: pol.calls⟩
    else if locked_check_p stamp locked_time pol.lockout_duration then
      ⟨K.KRB5KDC_ERR_CLIENT_REVOKED, Call.lookup_locked_time :: pol.calls⟩
    else
      ⟨0, Call.lookup_locked_time :: pol.calls⟩

/-- How `krb5_ldap_lockout_audit` ends: the outcome, the entry as the call leaves
it, and the calls it made. -/
structure AuditResult where
  outcome : Outcome
  entry : krb5_db_entry
  calls : List Call
deriving Repr, DecidableEq

/-- Lines 170-200 of `krb5_ldap_lockout_audit`: the branch on `status`, run on the
entry whose mask line 168 has just cleared. It yields the entry and the local
`locked_time`. The failure counter is compared as it stands in the entry: the
increment itself is left to the store through
`KADM5_FAIL_AUTH_COUNT_INCREMENT`. -/
def audit_update (K : Headers) (stamp status : Int) (max_fail : Nat) (failcnt_interval : Int)
    (entry : krb5_db_entry) (locked_time : Int) : krb5_db_entry × Int :=
  if status = 0 ∧ entry.attributes &&& K.KRB5_KDB_REQUIRES_PRE_AUTH ≠ 0 then
    let e1 := { entry with fail_auth_count := 0 }
    let e2 := if locked_time ≠ 0 then { e1 with mask := e1.mask ||| K.KADM5_LOCKED_TIME } else e1
    let lt2 := if locked_time ≠ 0 then 0 else locked_time
    ({ e2 with last_success := stamp,
               mask := e2.mask ||| (K.KADM5_LAST_SUCCESS ||| K.KADM5_FAIL_AUTH_COUNT) }, lt2)
  else if status = K.KRB5KDC_ERR_PREAUTH_FAILED ∨ status = K.KRB5KRB_AP_ERR_BAD_INTEGRITY then
    let stale := failcnt_interval ≠ 0 ∧ stamp > add32 entry.last_failed failcnt_interval
    let e1 := if stale then
        { entry with fail_auth_count := 0, mask := entry.mask ||| K.KADM5_LOCKED_TIME }
      else entry
    let lt1 := if stale then 0 else locked_time
    let e2 := { e1 with last_failed := stamp,
                        mask := e1.mask |||
                          (K.KADM5_LAST_FAILED ||| K.KADM5_FAIL_AUTH_COUNT_INCREMENT) }
    let hit := max_fail ≠ 0 ∧ e2.fail_auth_count ≥ max_fail
    let e3 := if hit then { e2 with mask := e2.mask ||| K.KADM5_LOCKED_TIME } else e2
    let lt3 := if hit then stamp else lt1
    (e3, lt3)
  else
    (entry, locked_time)

/-- Lines 202-215 of `krb5_ldap_lockout_audit`: the lock time goes through
`krb5_dbe_update_locked_time` when `KADM5_LOCKED_TIME` is in the mask, then the
entry goes through `krb5_ldap_put_principal` when the mask is not `0`; the
first non-zero code is returned. `calls` are the calls made so far. -/
def audit_persist (K : Headers) (w : World) (entry : krb5_db_entry) (locked_time : Int)
    (calls : List Call) : AuditResult :=
  if entry.mask &&& K.KADM5_LOCKED_TIME ≠ 0 then
    let upd := krb5_dbe_update_locked_time w entry locked_time
    let calls1 := calls ++ [Call.update_locked_time locked_time]
    if upd.1 ≠ 0 then
      ⟨Outcome.returned upd.1, upd.2, calls1⟩
    else if upd.2.mask ≠ 0 then
      if w.put_principal_code ≠ 0 then
        ⟨Outcome.returned w.put_principal_code, upd.2, calls1 ++ [Call.put_principal upd.2]⟩
      else
        ⟨Outcome.returned 0, upd.2, calls1 ++ [Call.put_principal upd.2]⟩
    else
      ⟨Outcome.returned 0, upd.2, calls1⟩
  else if entry.mask ≠ 0 then
    if w.put_principal_code ≠ 0 then
      ⟨Outcome.returned w.put_principal_code, entry, calls ++ [Call.put_principal entry]⟩
    else
      ⟨Outcome.returned 0, entry, calls ++ [Call.put_principal entry]⟩
  else
    ⟨Outcome.returned 0, entry, calls⟩

/-- Lines 136-216. The `switch` returns `0` at once for a status other than the
three it lists; the code of `krb5_dbe_lookup_locked_time` is dropped; the
`assert` ends the call when `locked_check_p` holds. -/
def krb5_ldap_lockout_audit (K : Headers) (w : World) (entry : krb5_db_entry)
    (stamp status : Int) : AuditResult :=
  if status ≠ 0 ∧ status ≠ K.KRB5KDC_ERR_PREAUTH_FAILED ∧
      status ≠ K.KRB5KRB_AP_ERR_BAD_INTEGRITY then
    ⟨Outcome.returned 0, entry, []⟩
  else
    let locked_time := (krb5_dbe_lookup_locked_time w entry).2
    let pol := lookup_lockout_policy w
    let calls := Call.lookup_locked_time :: pol.calls
    if pol.code ≠ 0 then
      ⟨Outcome.returned pol.code, entry, calls⟩
    else if locked_check_p stamp locked_time pol.lockout_duration then
      ⟨Outcome.assertion_failed, entry, calls⟩
    else
      let upd := audit_update K stamp status pol.max_fail pol.failcnt_interval
        { entry with mask := 0 } locked_time
      audit_persist K w upd.1 upd.2 calls

/-! ## The principal store -/

/-- Modelled from the spec: `krb5_ldap_put_principal` is not among the sources.
It is `applyPatch`, the masked update of the stored record `r` from the entry
`e`: a field is written exactly when its flag is in `e.mask`, and
`KADM5_FAIL_AUTH_COUNT_INCREMENT` is `incrementFailCount`, the bump by one of
the counter the store holds. -/
def PrincipalStore.applyPatch (K : Headers) (e r : krb5_db_entry) : krb5_db_entry :=
  let r1 := if e.mask &&& K.KADM5_LAST_SUCCESS ≠ 0 then
      { r with last_success := e.last_success } else r
  let r2 := if e.mask &&& K.KADM5_LAST_FAILED ≠ 0 then
      { r1 with last_failed := e.last_failed } else r1
  let r3 := if e.mask &&& K.KADM5_FAIL_AUTH_COUNT ≠ 0 then
      { r2 with fail_auth_count := e.fail_auth_count } else r2
  let r4 := if e.mask &&& K.KADM5_FAIL_AUTH_COUNT_INCREMENT ≠ 0 then
      { r3 with fail_auth_count := r3.fail_auth_count + 1 } else r3
  if e.mask &&& K.KADM5_LOCKED_TIME ≠ 0 then { r4 with locked_time := e.locked_time } else r4

/-- Modelled from the spec: the effect of one call on the stored record `r`.
The two lookups and the policy resolution read only; `updateLockedTime` and
`applyPatch` take effect when the helper reports success in `w`. -/
def PrincipalStore.step (K : Headers) (w : World) (r : krb5_db_entry) : Call → krb5_db_entry
  | Call.update_locked_time t =>
    if w.update_locked_time_code = 0 then { r with locked_time := t } else r
  | Call.put_principal e =>
    if w.put_principal_code = 0 then PrincipalStore.applyPatch K e r else r
  | _ => r

/-- Modelled from the spec: the stored record after the calls of one entry point, in order. -/
def PrincipalStore.run (K : Headers) (w : World) (r : krb5_db_entry) (calls : List Call) :
    krb5_db_entry :=
  calls.foldl (PrincipalStore.step K w) r

/-- Modelled from the spec: the record is read afresh from the store at the start
of each call; the entry handed to the entry point is the stored record with an
empty change mask. -/
def PrincipalStore.fetch (r : krb5_db_entry) : krb5_db_entry := { r with mask := 0 }

/-- One audited attempt against the store: the entry is fetched, audited, and the
calls made take effect on the stored record. -/
def audit_session (K : Headers) (w : World) (r : krb5_db_entry) (stamp status : Int) :
    Outcome × krb5_db_entry :=
  let res := krb5_ldap_lockout_audit K w (PrincipalStore.fetch r) stamp status
  (res.outcome, PrincipalStore.run K w r res.calls)

/-- One evaluation against the store: the entry is fetched and checked. -/
def check_session (K : Headers) (w : World) (r : krb5_db_entry) (stamp : Int) :
    Int × krb5_db_entry :=
  let res := krb5_ldap_lockout_check_policy K w (PrincipalStore.fetch r) stamp
  (res.code, PrincipalStore.run K w r res.calls)

/-- A world in which every helper succeeds and exactly one policy object, `p`,
is resolved for the principal. -/
def World.withPolicy (p : osa_policy_ent_rec) : World where
  locked_time_code := 0
  tl_data_code := 0
  tl_data_length := 1
  kadm_data_code := 0
  adb_policy := some "policy"
  policy_code := 0
  policy_count := 1
  policy := p
  update_locked_time_code := 0
  put_principal_code := 0

/-- The facts about the five change-mask flags that follow from
`Headers.WellFormed`: each flag is non-zero and any two different flags share
no bit, in either order. -/
structure MaskFacts (K : Headers) : Prop where
  L_ne : K.KADM5_LOCKED_TIME ≠ 0
  LS_ne : K.KADM5_LAST_SUCCESS ≠ 0
  LF_ne : K.KADM5_LAST_FAILED ≠ 0
  FC_ne : K.KADM5_FAIL_AUTH_COUNT ≠ 0
  INC_ne : K.KADM5_FAIL_AUTH_COUNT_INCREMENT ≠ 0
  LS_L : K.KADM5_LAST_SUCCESS &&& K.KADM5_LOCKED_TIME = 0
  LF_L : K.KADM5_LAST_FAILED &&& K.KADM5_LOCKED_TIME = 0
  FC_L : K.KADM5_FAIL_AUTH_COUNT &&& K.KADM5_LOCKED_TIME = 0
  INC_L : K.KADM5_FAIL_AUTH_COUNT_INCREMENT &&& K.KADM5_LOCKED_TIME = 0
  L_LS : K.KADM5_LOCKED_TIME &&& K.KADM5_LAST_SUCCESS = 0
  LF_LS : K.KADM5_LAST_FAILED &&& K.KADM5_LAST_SUCCESS = 0
  FC_LS : K.KADM5_FAIL_AUTH_COUNT &&& K.KADM5_LAST_SUCCESS = 0
  INC_LS : K.KADM5_FAIL_AUTH_COUNT_INCREMENT &&& K.KADM5_LAST_SUCCESS = 0
  L_LF : K.KADM5_LOCKED_TIME &&& K.KADM5_LAST_FAILED = 0
  LS_LF : K.KADM5_LAST_SUCCESS &&& K.KADM5_LAST_FAILED = 0
  FC_LF : K.KADM5_FAIL_AUTH_COUNT &&& K.KADM5_LAST_FAILED = 0
  INC_LF : K.KADM5_FAIL_AUTH_COUNT_INCREMENT &&& K.KADM5_LAST_FAILED = 0
  L_FC : K.KADM5_LOCKED_TIME &&& K.KADM5_FAIL_AUTH_COUNT = 0
  LS_FC : K.KADM5_LAST_SUCCESS &&& K.KADM5_FAIL_AUTH_COUNT = 0
  LF_FC : K.KADM5_LAST_FAILED &&& K.KADM5_FAIL_AUTH_COUNT = 0
  INC_FC : K.KADM5_FAIL_AUTH_COUNT_INCREMENT &&& K.KADM5_FAIL_AUTH_COUNT = 0
  L_INC : K.KADM5_LOCKED_TIME &&& K.KADM5_FAIL_AUTH_COUNT_INCREMENT = 0
  LS_INC : K.KADM5_LAST_SUCCESS &&& K.KADM5_FAIL_AUTH_COUNT_INCREMENT = 0
  LF_INC : K.KADM5_LAST_FAILED &&& K.KADM5_FAIL_AUTH_COUNT_INCREMENT = 0
  FC_INC : K.KADM5_FAIL_AUTH_COUNT &&& K.KADM5_FAIL_AUTH_COUNT_INCREMENT = 0

/-- A world in which the lock-time fetch fails with code `12` while every other
helper succeeds and the policy `p` is resolved. -/
def World.fetchFails (p : osa_policy_ent_rec) : World :=
  { World.withPolicy p with locked_time_code := 12 }

/-- The stored record after a run of failed preauthentications audited one after
the other at the given stamps, each attempt reading the record as the one before
left it. -/
def audit_failures (K : Headers) (w : World) (r : krb5_db_entry) (stamps : List Int) :
    krb5_db_entry :=
  stamps.foldl (fun r t => (audit_session K w r t K.KRB5KDC_ERR_PREAUTH_FAILED).2) r

/-- A world in which a policy name is attached but `krb5_ldap_get_password_policy`
fails with code `5`, leaving its count at `0`; every other helper succeeds. -/
def World.policyFails (p : osa_policy_ent_rec) : World :=
  { World.withPolicy p with policy_code := 5, policy_count := 0 }

/-- A world in which a policy name is attached and `krb5_ldap_get_password_policy`
succeeds but reports two policy objects; every other helper succeeds. -/
def World.policyAmbiguous (p : osa_policy_ent_rec) : World :=
  { World.withPolicy p with policy_count := 2 }

/-- What it means for the result `r` of an audit to surface its write failures, for the
helper outcomes `w` and a stored record `stored`: a failed lock-time update is
the outcome and no entry write follows it; a failed entry write is the outcome
and the lock-time update made before it is in place, in the entry and in the
store; the outcome `0` means every write made succeeded; and each of the two
writes is made at most once, the lock-time update first. -/
def SurfacesWriteFailures (K : Headers) (w : World) (stored : krb5_db_entry)
    (r : AuditResult) : Prop :=
  (w.update_locked_time_code ≠ 0 → ∀ t, Call.update_locked_time t ∈ r.calls →
    r.outcome = Outcome.returned w.update_locked_time_code ∧
    ∀ e, Call.put_principal e ∉ r.calls) ∧
  (w.put_principal_code ≠ 0 → ∀ e, Call.put_principal e ∈ r.calls →
    r.outcome = Outcome.returned w.put_principal_code ∧
    ∀ t, Call.update_locked_time t ∈ r.calls →
      w.update_locked_time_code = 0 ∧ r.entry.locked_time = t ∧
      (PrincipalStore.run K w stored r.calls).locked_time = t) ∧
  (r.outcome = Outcome.returned 0 →
    (∀ t, Call.update_locked_time t ∈ r.calls → w.update_locked_time_code = 0) ∧
    (∀ e, Call.put_principal e ∈ r.calls → w.put_principal_code = 0)) ∧
  (r.calls.filter Call.isWrite = [] ∨
    (∃ e, r.calls.filter Call.isWrite = [Call.put_principal e]) ∨
    (∃ t, r.calls.filter Call.isWrite = [Call.update_locked_time t]) ∨
    (∃ t e, r.calls.filter Call.isWrite = [Call.update_locked_time t, Call.put_principal e]))

/-- A world in which `krb5_dbe_update_locked_time` fails with code `7`; every other
helper succeeds and the policy `p` is resolved. -/
def World.updateFails (p : osa_policy_ent_rec) : World :=
  { World.withPolicy p with update_locked_time_code := 7 }

/-- A world in which `krb5_ldap_put_principal` fails with code `9`; every other
helper succeeds and the policy `p` is resolved. -/
def World.putFails (p : osa_policy_ent_rec) : World :=
  { World.withPolicy p with put_principal_code := 9 }

/-- A call with the lock time carried by the entry of a `krb5_ldap_put_principal`
set aside: what is left is the kind of the call, the lock time handed to
`krb5_dbe_update_locked_time`, and the mask and the other fields handed to
`krb5_ldap_put_principal`. -/
def Call.withoutLockTime : Call → Call
  | Call.put_principal e => Call.put_principal { e with locked_time := 0 }
  | c => c

end Lockout

/-! # The seed of `util_seed.c` -/

namespace UtilSeed

/-- The unsigned 32-bit subtraction `a - b` of the C code, wrapping modulo `2^32`. -/
def usub32 (a b : Nat) : Nat := (a % 4294967296 + 4294967296 - b % 4294967296) % 4294967296

/-- The fields of `krb5_keyblock`; `length` is the number of bytes of `contents`. -/
structure krb5_keyblock where
  magic : Int
  enctype : Int
  contents : List Nat
deriving Repr, DecidableEq

/-- The `length` field of a key block. -/
def krb5_keyblock.length (k : krb5_keyblock) : Nat := k.contents.length

/-- The static array `zeros` of line 32. -/
def zeros : List Nat := [0, 0, 0, 0, 0, 0, 0, 0, 0, 0, 0, 0, 0, 0, 0, 0]

/-- The two helpers `kg_make_seed` calls and `util_seed.c` does not define: the code
`krb5_copy_keyblock` returns, and `kg_encrypt` as a function of the key, the
input block and the length it is handed, to its code and the output it writes. -/
structure Helpers where
  copy_code : Int
  kg_encrypt : krb5_keyblock → List Nat → Nat → Int × List Nat

/-- What `kg_make_seed` leaves: its code, the key of the caller after the call, the
arguments of the call of `kg_encrypt` if it was made (key, input, length), and
the seed written. -/
structure SeedResult where
  code : Int
  key : krb5_keyblock
  encrypt_call : Option (krb5_keyblock × List Nat × Nat)
  seed : Option (List Nat)

/-- Lines 49-50: the loop `for (i=0; i<tmpkey->length; i++)` that stores byte
`key->length - 1 - i` of `key` at index `i` of `tmpkey`. -/
def reverse_key_bytes (key tmpkey : krb5_keyblock) : krb5_keyblock :=
  (List.range tmpkey.length).foldl
    (fun t i =>
      { t with contents := t.contents.set i (key.contents.getD (usub32 (usub32 key.length 1) i) 0) })
    tmpkey

/-- Modelled from the spec: `krb5_copy_keyblock` is not among the sources. It returns its
code and, when that is `0`, hands back the temporary key block, a copy of `key`
in storage of its own. -/
def krb5_copy_keyblock (h : Helpers) (key : krb5_keyblock) : Int × krb5_keyblock :=
  (h.copy_code, key)

/-- Lines 34-57: the copy, the reversal loop, the call of `kg_encrypt` on the `16`
bytes of `zeros`, whose code is returned. -/
def kg_make_seed (h : Helpers) (key : krb5_keyblock) : SeedResult :=
  if (krb5_copy_keyblock h key).1 ≠ 0 then
    ⟨(krb5_copy_keyblock h key).1, key, none, none⟩
  else
    let tmpkey := reverse_key_bytes key (krb5_copy_keyblock h key).2
    let r := h.kg_encrypt tmpkey zeros 16
    ⟨r.1, key, some (tmpkey, zeros, 16), some r.2⟩

/-- Helpers for concrete runs: the copy succeeds and `kg_encrypt` returns `0` and, as
output, the first bytes of the key followed by the input. -/
def sampleHelpers : Helpers :=
  ⟨0, fun k input n => (0, (k.contents ++ input).take n)⟩

end UtilSeed

namespace Lockout

/-! ## Basic facts -/

theorem wrap32_of_range (x : Int) (h1 : -2147483648 ≤ x) (h2 : x ≤ 2147483647) :
    wrap32 x = x := by
  unfold wrap32
  omega

theorem add32_of_range (a b : Int) (h1 : -2147483648 ≤ a + b) (h2 : a + b ≤ 2147483647) :
    add32 a b = a + b :=
  wrap32_of_range (a + b) h1 h2

theorem mitHeaders_wellFormed : mitHeaders.WellFormed := by decide

/-! ## The evaluator, `krb5_ldap_lockout_check_policy` -/

/-- C1. When the lock-time fetch succeeds with a non-zero `locked_time`, the
policy lookup succeeds with a non-zero `lockout_duration`, and
`locked_time + lockout_duration` fits 32 bits,
`krb5_ldap_lockout_check_policy` returns `KRB5KDC_ERR_CLIENT_REVOKED` exactly
when `stamp < locked_time + lockout_duration` and returns `0` exactly otherwise
(`KRB5KDC_ERR_CLIENT_REVOKED` being an error code, hence not `0`). -/
theorem check_policy_timed_lock (K : Headers) (hrev : K.KRB5KDC_ERR_CLIENT_REVOKED ≠ 0)
    (w : World) (entry : krb5_db_entry) (stamp : Int)
    (hfetch : w.locked_time_code = 0) (hlt : entry.locked_time ≠ 0)
    (hpol : (lookup_lockout_policy w).code = 0)
    (hdur : (lookup_lockout_policy w).lockout_duration ≠ 0)
    (hlo : -2147483648 ≤ entry.locked_time + (lookup_lockout_policy w).lockout_duration)
    (hhi : entry.locked_time + (lookup_lockout_policy w).lockout_duration ≤ 2147483647) :
    ((krb5_ldap_lockout_check_policy K w entry stamp).code = K.KRB5KDC_ERR_CLIENT_REVOKED ↔
        stamp < entry.locked_time + (lookup_lockout_policy w).lockout_duration) ∧
    ((krb5_ldap_lockout_check_policy K w entry stamp).code = 0 ↔
        ¬ stamp < entry.locked_time + (lookup_lockout_policy w).lockout_duration) := by
  have hadd := add32_of_range _ _ hlo hhi
  by_cases hs : stamp < entry.locked_time + (lookup_lockout_policy w).lockout_duration
  · have hc : (krb5_ldap_lockout_check_policy K w entry stamp).code =
        K.KRB5KDC_ERR_CLIENT_REVOKED := by
      simp [krb5_ldap_lockout_check_policy, krb5_dbe_lookup_locked_time, locked_check_p,
        hfetch, hlt, hpol, hdur, hadd, hs]
    rw [hc]
    exact ⟨⟨fun _ => hs, fun _ => rfl⟩, ⟨fun h => absurd h hrev, fun h => absurd hs h⟩⟩
  · have hc : (krb5_ldap_lockout_check_policy K w entry stamp).code = 0 := by
      simp [krb5_ldap_lockout_check_policy, krb5_dbe_lookup_locked_time, locked_check_p,
        hfetch, hlt, hpol, hdur, hadd, hs]
    rw [hc]
    exact ⟨⟨fun h => absurd h.symm hrev, fun h => absurd h hs⟩, ⟨fun _ => hs, fun _ => rfl⟩⟩

/-- Witness of C1: with `locked_time = 100` and a resolved duration of `60`, the
check returns `KRB5KDC_ERR_CLIENT_REVOKED` at `stamp = 159` and `0` at `stamp = 160`. -/
theorem check_policy_timed_lock_witness :
    (krb5_ldap_lockout_check_policy mitHeaders (World.withPolicy ⟨3, 0, 60⟩)
        ⟨0, 3, 99, 0, 0, 100⟩ 159).code = mitHeaders.KRB5KDC_ERR_CLIENT_REVOKED ∧
    (krb5_ldap_lockout_check_policy mitHeaders (World.withPolicy ⟨3, 0, 60⟩)
        ⟨0, 3, 99, 0, 0, 100⟩ 160).code = 0 :=
  ⟨(check_policy_timed_lock mitHeaders (by decide) (World.withPolicy ⟨3, 0, 60⟩)
      ⟨0, 3, 99, 0, 0, 100⟩ 159 (by decide) (by decide) (by decide) (by decide) (by decide)
      (by decide)).1.2 (by decide),
   (check_policy_timed_lock mitHeaders (by decide) (World.withPolicy ⟨3, 0, 60⟩)
      ⟨0, 3, 99, 0, 0, 100⟩ 160 (by decide) (by decide) (by decide) (by decide) (by decide)
      (by decide)).2.2 (by decide)⟩

/-- C2. When the lock-time fetch succeeds with a non-zero `locked_time` and the
policy lookup succeeds with `lockout_duration = 0`,
`krb5_ldap_lockout_check_policy` returns `KRB5KDC_ERR_CLIENT_REVOKED` for every
`stamp`: the lock is permanent. -/
theorem check_policy_permanent_lock (K : Headers) (w : World) (entry : krb5_db_entry)
    (stamp : Int) (hfetch : w.locked_time_code = 0) (hlt : entry.locked_time ≠ 0)
    (hpol : (lookup_lockout_policy w).code = 0)
    (hdur : (lookup_lockout_policy w).lockout_duration = 0) :
    (krb5_ldap_lockout_check_policy K w entry stamp).code = K.KRB5KDC_ERR_CLIENT_REVOKED := by
  simp [krb5_ldap_lockout_check_policy, krb5_dbe_lookup_locked_time, locked_check_p,
    hfetch, hlt, hpol, hdur]

/-- Witness of C2: `locked_time = 100`, resolved duration `0`, checked long after. -/
theorem check_policy_permanent_lock_witness :
    (krb5_ldap_lockout_check_policy mitHeaders (World.withPolicy ⟨3, 0, 0⟩)
        ⟨0, 3, 99, 0, 0, 100⟩ 2000000000).code = mitHeaders.KRB5KDC_ERR_CLIENT_REVOKED :=
  check_policy_permanent_lock mitHeaders (World.withPolicy ⟨3, 0, 0⟩) ⟨0, 3, 99, 0, 0, 100⟩
    2000000000 (by decide) (by decide) (by decide) (by decide)

/-- C3. When the lock-time fetch succeeds and yields `0`,
`krb5_ldap_lockout_check_policy` returns `0` whatever the policy helpers would
answer and whatever `stamp` is, and the lock-time fetch is the only call it
makes: the policy is not looked up. -/
theorem check_policy_unlocked_fast_path (K : Headers) (w : World) (entry : krb5_db_entry)
    (stamp : Int) (hfetch : w.locked_time_code = 0) (hlt : entry.locked_time = 0) :
    (krb5_ldap_lockout_check_policy K w entry stamp).code = 0 ∧
    (krb5_ldap_lockout_check_policy K w entry stamp).calls = [Call.lookup_locked_time] ∧
    ∀ c ∈ (krb5_ldap_lockout_check_policy K w entry stamp).calls, c.isPolicyLookup = false := by
  simp [krb5_ldap_lockout_check_policy, krb5_dbe_lookup_locked_time, hfetch, hlt,
    Call.isPolicyLookup]

/-- Witness of C3: no lock time, and a world whose policy lookup would fail with code `5`. -/
theorem check_policy_unlocked_fast_path_witness :
    (lookup_lockout_policy ⟨0, 5, 0, 0, none, 0, 0, ⟨0, 0, 0⟩, 0, 0⟩).code = 5 ∧
    (krb5_ldap_lockout_check_policy mitHeaders ⟨0, 5, 0, 0, none, 0, 0, ⟨0, 0, 0⟩, 0, 0⟩
        ⟨0, 0, 0, 0, 0, 0⟩ 7).code = 0 :=
  ⟨by decide,
   (check_policy_unlocked_fast_path mitHeaders ⟨0, 5, 0, 0, none, 0, 0, ⟨0, 0, 0⟩, 0, 0⟩
      ⟨0, 0, 0, 0, 0, 0⟩ 7 (by decide) (by decide)).1⟩

/-! ## Facts about the change mask -/

theorem or_and_self_right (a L : Nat) : (a ||| L) &&& L = L := by
  apply Nat.eq_of_testBit_eq
  intro i
  simp only [Nat.testBit_and, Nat.testBit_or]
  cases a.testBit i <;> cases L.testBit i <;> rfl

theorem or_eq_zero_iff_both (a b : Nat) : a ||| b = 0 ↔ a = 0 ∧ b = 0 := by
  constructor
  · intro h
    constructor
    · apply Nat.eq_of_testBit_eq
      intro i
      have := congrArg (fun n => Nat.testBit n i) h
      simp at this
      simp [this.1]
    · apply Nat.eq_of_testBit_eq
      intro i
      have := congrArg (fun n => Nat.testBit n i) h
      simp at this
      simp [this.2]
  · rintro ⟨rfl, rfl⟩
    simp

/-- The calls of `lookup_lockout_policy` only read. -/
theorem lookup_lockout_policy_calls_read (w : World) :
    ∀ c ∈ (lookup_lockout_policy w).calls, c.isWrite = false := by
  unfold lookup_lockout_policy
  cases w.adb_policy <;> (split_ifs <;> simp [Call.isWrite])

/-! ## The auditor, `krb5_ldap_lockout_audit` -/

/-- The lock-time fetch followed by the policy lookup only reads. -/
theorem lookup_calls_read (w : World) :
    ∀ c ∈ Call.lookup_locked_time :: (lookup_lockout_policy w).calls, c.isWrite = false := by
  intro c hc
  rcases List.mem_cons.mp hc with h | h
  · rw [h]; rfl
  · exact lookup_lockout_policy_calls_read w c h

/-- The `assert` of line 166: a recognised status, a successful policy lookup and
a lock that `locked_check_p` reports end the call there, before the entry is touched. -/
theorem audit_of_locked (K : Headers) (w : World) (entry : krb5_db_entry) (stamp status : Int)
    (hstatus : status = 0 ∨ status = K.KRB5KDC_ERR_PREAUTH_FAILED ∨
      status = K.KRB5KRB_AP_ERR_BAD_INTEGRITY)
    (hpol : (lookup_lockout_policy w).code = 0)
    (hlocked : locked_check_p stamp (krb5_dbe_lookup_locked_time w entry).2
      (lookup_lockout_policy w).lockout_duration = true) :
    krb5_ldap_lockout_audit K w entry stamp status =
      ⟨Outcome.assertion_failed, entry,
        Call.lookup_locked_time :: (lookup_lockout_policy w).calls⟩ := by
  have hsw : ¬ (status ≠ 0 ∧ status ≠ K.KRB5KDC_ERR_PREAUTH_FAILED ∧
      status ≠ K.KRB5KRB_AP_ERR_BAD_INTEGRITY) := by
    rcases hstatus with h | h | h <;> simp [h]
  unfold krb5_ldap_lockout_audit
  rw [if_neg hsw]
  simp [hpol, hlocked]

/-- C8 (amended). For each of the three recognised statuses, when the lock-time fetch
and the policy lookup succeed and the principal is inside an active lock window
at `stamp` (`locked_time` is not `0`, and `lockout_duration` is `0` or `stamp` is
below `locked_time + lockout_duration`, a sum that fits 32 bits),
`krb5_ldap_lockout_audit` ends on its failed assertion, leaves the entry exactly
as it was and makes no writing call. -/
theorem audit_inside_lock_window_asserts (K : Headers) (w : World) (entry : krb5_db_entry)
    (stamp status : Int)
    (hstatus : status = 0 ∨ status = K.KRB5KDC_ERR_PREAUTH_FAILED ∨
      status = K.KRB5KRB_AP_ERR_BAD_INTEGRITY)
    (hfetch : w.locked_time_code = 0) (hpol : (lookup_lockout_policy w).code = 0)
    (hlt : entry.locked_time ≠ 0)
    (hwin : (lookup_lockout_policy w).lockout_duration = 0 ∨
      (stamp < entry.locked_time + (lookup_lockout_policy w).lockout_duration ∧
        -2147483648 ≤ entry.locked_time + (lookup_lockout_policy w).lockout_duration ∧
        entry.locked_time + (lookup_lockout_policy w).lockout_duration ≤ 2147483647)) :
    (krb5_ldap_lockout_audit K w entry stamp status).outcome = Outcome.assertion_failed ∧
    (krb5_ldap_lockout_audit K w entry stamp status).entry = entry ∧
    ∀ c ∈ (krb5_ldap_lockout_audit K w entry stamp status).calls, c.isWrite = false := by
  have hlocked : locked_check_p stamp (krb5_dbe_lookup_locked_time w entry).2
      (lookup_lockout_policy w).lockout_duration = true := by
    simp only [krb5_dbe_lookup_locked_time, hfetch, if_true]
    unfold locked_check_p
    rcases hwin with h | ⟨h, hlo, hhi⟩
    · simp [hlt, h]
    · by_cases hd : (lookup_lockout_policy w).lockout_duration = 0
      · simp [hlt, hd]
      · rw [if_neg hlt, if_neg hd, add32_of_range _ _ hlo hhi]
        exact decide_eq_true h
  rw [audit_of_locked K w entry stamp status hstatus hpol hlocked]
  exact ⟨rfl, rfl, lookup_calls_read w⟩

/-- Witness of C8 (amended): `locked_time = 100`, duration `60`, a failed preauthentication
audited at `120`. -/
theorem audit_inside_lock_window_asserts_witness :
    (krb5_ldap_lockout_audit mitHeaders (World.withPolicy ⟨3, 0, 60⟩) ⟨128, 3, 99, 0, 0, 100⟩
      120 mitHeaders.KRB5KDC_ERR_PREAUTH_FAILED).outcome = Outcome.assertion_failed :=
  (audit_inside_lock_window_asserts mitHeaders (World.withPolicy ⟨3, 0, 60⟩)
    ⟨128, 3, 99, 0, 0, 100⟩ 120 mitHeaders.KRB5KDC_ERR_PREAUTH_FAILED
    (Or.inr (Or.inl rfl)) (by decide) (by decide) (by decide) (Or.inr (by decide))).1

/-- Counterexample to C8 as stated: the fetch and the policy lookup succeed, the lock
time is `1700000000`, not `0`, and `stamp = 1700000000` is below the plain sum
`1700000000 + 500000000`, so the principal is inside the lock window the claim
describes. The 32-bit sum wraps to `-2094967296`, the assertion passes, and the
audit of a failed preauthentication returns `0` and writes the entry. -/
theorem audit_inside_overflowing_window_proceeds :
    (World.withPolicy ⟨3, 0, 500000000⟩).locked_time_code = 0 ∧
    (lookup_lockout_policy (World.withPolicy ⟨3, 0, 500000000⟩)).code = 0 ∧
    (lookup_lockout_policy (World.withPolicy ⟨3, 0, 500000000⟩)).lockout_duration =
      500000000 ∧
    (⟨128, 0, 1699999999, 0, 0, 1700000000⟩ : krb5_db_entry).locked_time ≠ 0 ∧
    (1700000000 : Int) < 1700000000 + 500000000 ∧
    (krb5_ldap_lockout_audit mitHeaders (World.withPolicy ⟨3, 0, 500000000⟩)
      ⟨128, 0, 1699999999, 0, 0, 1700000000⟩ 1700000000
      mitHeaders.KRB5KDC_ERR_PREAUTH_FAILED).outcome = Outcome.returned 0 ∧
    (krb5_ldap_lockout_audit mitHeaders (World.withPolicy ⟨3, 0, 500000000⟩)
      ⟨128, 0, 1699999999, 0, 0, 1700000000⟩ 1700000000
      mitHeaders.KRB5KDC_ERR_PREAUTH_FAILED).calls.filter Call.isWrite =
        [Call.put_principal ⟨128, 0, 1700000000, 0, 557056, 1700000000⟩] := by
  decide

/-- C9. For a principal without `KRB5_KDB_REQUIRES_PRE_AUTH`, whatever the helpers
answer and whatever `stamp` is, `krb5_ldap_lockout_audit` with status `0`
leaves `fail_auth_count`, `locked_time`, `last_success` and `last_failed` as
they were and makes no writing call (the two failure statuses being `case`
labels next to `case 0`, hence not `0`). -/
theorem audit_success_without_preauth_frame (K : Headers)
    (hpf : K.KRB5KDC_ERR_PREAUTH_FAILED ≠ 0) (hbi : K.KRB5KRB_AP_ERR_BAD_INTEGRITY ≠ 0)
    (w : World) (entry : krb5_db_entry) (stamp : Int)
    (hpre : entry.attributes &&& K.KRB5_KDB_REQUIRES_PRE_AUTH = 0) :
    (krb5_ldap_lockout_audit K w entry stamp 0).entry.fail_auth_count = entry.fail_auth_count ∧
    (krb5_ldap_lockout_audit K w entry stamp 0).entry.locked_time = entry.locked_time ∧
    (krb5_ldap_lockout_audit K w entry stamp 0).entry.last_success = entry.last_success ∧
    (krb5_ldap_lockout_audit K w entry stamp 0).entry.last_failed = entry.last_failed ∧
    ∀ c ∈ (krb5_ldap_lockout_audit K w entry stamp 0).calls, c.isWrite = false := by
  have h1 : ¬ ((0 : Int) = K.KRB5KDC_ERR_PREAUTH_FAILED) := fun h => hpf h.symm
  have h2 : ¬ ((0 : Int) = K.KRB5KRB_AP_ERR_BAD_INTEGRITY) := fun h => hbi h.symm
  have hcalls := lookup_calls_read w
  unfold krb5_ldap_lockout_audit
  rw [if_neg (by simp)]
  simp only []
  split_ifs with hp hl
  · exact ⟨rfl, rfl, rfl, rfl, hcalls⟩
  · exact ⟨rfl, rfl, rfl, rfl, hcalls⟩
  · have hu : audit_update K stamp 0 (lookup_lockout_policy w).max_fail
        (lookup_lockout_policy w).failcnt_interval { entry with mask := 0 }
        (krb5_dbe_lookup_locked_time w entry).2 =
        ({ entry with mask := 0 }, (krb5_dbe_lookup_locked_time w entry).2) := by
      simp [audit_update, hpre, h1, h2]
    rw [hu]
    simp only [audit_persist, Nat.zero_and, ne_eq, not_true_eq_false, if_false]
    refine ⟨?_, ?_, ?_, ?_, ?_⟩
    all_goals trivial

/-- Witness of C9: no preauthentication flag, a stale lock at `100`, status `0` audited at `500`. -/
theorem audit_success_without_preauth_frame_witness :
    (krb5_ldap_lockout_audit mitHeaders (World.withPolicy ⟨3, 0, 60⟩) ⟨0, 3, 99, 7, 0, 100⟩
      500 0).entry.last_success = 7 :=
  (audit_success_without_preauth_frame mitHeaders (by decide) (by decide)
    (World.withPolicy ⟨3, 0, 60⟩) ⟨0, 3, 99, 7, 0, 100⟩ 500 (by decide)).2.2.1

/-- C10. For a status other than `0`, `KRB5KDC_ERR_PREAUTH_FAILED` and
`KRB5KRB_AP_ERR_BAD_INTEGRITY`, `krb5_ldap_lockout_audit` returns `0` at once:
it makes no call at all (so neither reads nor writes the store, and never
reaches its assertion) and hands the entry back unchanged, mask included. -/
theorem audit_other_status_frame (K : Headers) (w : World) (entry : krb5_db_entry)
    (stamp status : Int) (h0 : status ≠ 0) (h1 : status ≠ K.KRB5KDC_ERR_PREAUTH_FAILED)
    (h2 : status ≠ K.KRB5KRB_AP_ERR_BAD_INTEGRITY) :
    krb5_ldap_lockout_audit K w entry stamp status = ⟨Outcome.returned 0, entry, []⟩ := by
  unfold krb5_ldap_lockout_audit
  rw [if_pos ⟨h0, h1, h2⟩]

/-- Witness of C10: a permanently locked principal with a non-empty mask, audited
with the status of an unknown client principal. -/
theorem audit_other_status_frame_witness :
    krb5_ldap_lockout_audit mitHeaders (World.withPolicy ⟨3, 0, 0⟩) ⟨128, 3, 99, 7, 16384, 100⟩
      500 (-1765328378) = ⟨Outcome.returned 0, ⟨128, 3, 99, 7, 16384, 100⟩, []⟩ :=
  audit_other_status_frame mitHeaders (World.withPolicy ⟨3, 0, 0⟩) ⟨128, 3, 99, 7, 16384, 100⟩
    500 (-1765328378) (by decide) (by decide) (by decide)

theorem Headers.WellFormed.facts {K : Headers} (hK : K.WellFormed) : MaskFacts K := by
  obtain ⟨_, _, _, hL, hLS, hLF, hFC, hINC, hLSL, hLFL, hFCL, hINCL, hLSLF, hLSFC, hLSINC,
    hLFFC, hLFINC, hFCINC⟩ := hK
  exact
    { L_ne := hL, LS_ne := hLS, LF_ne := hLF, FC_ne := hFC, INC_ne := hINC,
      LS_L := hLSL, LF_L := hLFL, FC_L := hFCL, INC_L := hINCL,
      L_LS := by rw [Nat.and_comm]; exact hLSL,
      LF_LS := by rw [Nat.and_comm]; exact hLSLF,
      FC_LS := by rw [Nat.and_comm]; exact hLSFC,
      INC_LS := by rw [Nat.and_comm]; exact hLSINC,
      L_LF := by rw [Nat.and_comm]; exact hLFL,
      LS_LF := hLSLF,
      FC_LF := by rw [Nat.and_comm]; exact hLFFC,
      INC_LF := by rw [Nat.and_comm]; exact hLFINC,
      L_FC := by rw [Nat.and_comm]; exact hFCL,
      LS_FC := hLSFC, LF_FC := hLFFC,
      INC_FC := by rw [Nat.and_comm]; exact hFCINC,
      L_INC := by rw [Nat.and_comm]; exact hINCL,
      LS_INC := hLSINC, LF_INC := hLFINC, FC_INC := hFCINC }

/-- Calls that only read leave the stored record as it is. -/
theorem store_run_reads (K : Headers) (w : World) (calls : List Call) :
    ∀ r : krb5_db_entry, (∀ c ∈ calls, c.isWrite = false) →
      PrincipalStore.run K w r calls = r := by
  induction calls with
  | nil => intro r _; rfl
  | cons c cs ih =>
    intro r h
    have hc : c.isWrite = false := h c (List.mem_cons_self _ _)
    have hstep : PrincipalStore.step K w r c = r := by
      cases c <;> simp_all [PrincipalStore.step, Call.isWrite]
    have hrest := ih r (fun d hd => h d (List.mem_cons_of_mem _ hd))
    simpa [PrincipalStore.run, hstep] using hrest

theorem store_run_append (K : Headers) (w : World) (r : krb5_db_entry) (a b : List Call) :
    PrincipalStore.run K w r (a ++ b) = PrincipalStore.run K w (PrincipalStore.run K w r a) b := by
  simp [PrincipalStore.run, List.foldl_append]

theorem and_or_eq_zero (a b x : Nat) : (a ||| b) &&& x = 0 ↔ a &&& x = 0 ∧ b &&& x = 0 := by
  rw [Nat.and_distrib_right, or_eq_zero_iff_both]

/-- The masked update for the mask of a counted success: `last_success` and the
absolute `fail_auth_count` are written. -/
theorem applyPatch_success (K : Headers) (F : MaskFacts K) (e r : krb5_db_entry)
    (hm : e.mask = K.KADM5_LAST_SUCCESS ||| K.KADM5_FAIL_AUTH_COUNT) :
    PrincipalStore.applyPatch K e r =
      { r with last_success := e.last_success, fail_auth_count := e.fail_auth_count } := by
  simp [PrincipalStore.applyPatch, hm, and_or_eq_zero, F.L_ne, F.LS_ne, F.LF_ne, F.FC_ne, F.INC_ne, F.LS_L, F.LF_L, F.FC_L, F.INC_L,
    F.L_LS, F.LF_LS, F.FC_LS, F.INC_LS, F.L_LF, F.LS_LF, F.FC_LF, F.INC_LF, F.L_FC, F.LS_FC,
    F.LF_FC, F.INC_FC, F.L_INC, F.LS_INC, F.LF_INC, F.FC_INC]

/-- The same with `KADM5_LOCKED_TIME` in the mask: the lock time is written too. -/
theorem applyPatch_success_lock (K : Headers) (F : MaskFacts K) (e r : krb5_db_entry)
    (hm : e.mask = K.KADM5_LOCKED_TIME |||
      (K.KADM5_LAST_SUCCESS ||| K.KADM5_FAIL_AUTH_COUNT)) :
    PrincipalStore.applyPatch K e r =
      { r with last_success := e.last_success, fail_auth_count := e.fail_auth_count,
               locked_time := e.locked_time } := by
  simp [PrincipalStore.applyPatch, hm, and_or_eq_zero, F.L_ne, F.LS_ne, F.LF_ne, F.FC_ne, F.INC_ne, F.LS_L, F.LF_L, F.FC_L, F.INC_L,
    F.L_LS, F.LF_LS, F.FC_LS, F.INC_LS, F.L_LF, F.LS_LF, F.FC_LF, F.INC_LF, F.L_FC, F.LS_FC,
    F.LF_FC, F.INC_FC, F.L_INC, F.LS_INC, F.LF_INC, F.FC_INC]

/-- The masked update for the mask of a counted failure: `last_failed` is written
and the stored counter is bumped by one; the counter of the entry is not written. -/
theorem applyPatch_failure (K : Headers) (F : MaskFacts K) (e r : krb5_db_entry)
    (hm : e.mask = K.KADM5_LAST_FAILED ||| K.KADM5_FAIL_AUTH_COUNT_INCREMENT) :
    PrincipalStore.applyPatch K e r =
      { r with last_failed := e.last_failed, fail_auth_count := r.fail_auth_count + 1 } := by
  simp [PrincipalStore.applyPatch, hm, and_or_eq_zero, F.L_ne, F.LS_ne, F.LF_ne, F.FC_ne, F.INC_ne, F.LS_L, F.LF_L, F.FC_L, F.INC_L,
    F.L_LS, F.LF_LS, F.FC_LS, F.INC_LS, F.L_LF, F.LS_LF, F.FC_LF, F.INC_LF, F.L_FC, F.LS_FC,
    F.LF_FC, F.INC_FC, F.L_INC, F.LS_INC, F.LF_INC, F.FC_INC]

/-- The audit of a success for a principal that requires preauthentication, once
the policy is resolved and the assertion passes: the lock time read is cleared
when it was set. -/
theorem audit_success_preauth_run (K : Headers) (hK : K.WellFormed) (w : World)
    (entry : krb5_db_entry) (stamp : Int)
    (hpre : entry.attributes &&& K.KRB5_KDB_REQUIRES_PRE_AUTH ≠ 0)
    (hpol : (lookup_lockout_policy w).code = 0)
    (hwin : locked_check_p stamp (krb5_dbe_lookup_locked_time w entry).2
      (lookup_lockout_policy w).lockout_duration = false)
    (hupd : w.update_locked_time_code = 0) (hput : w.put_principal_code = 0) :
    krb5_ldap_lockout_audit K w entry stamp 0 =
      if (krb5_dbe_lookup_locked_time w entry).2 ≠ 0 then
        ⟨Outcome.returned 0,
          { entry with fail_auth_count := 0, last_success := stamp, locked_time := 0,
                       mask := (0 ||| K.KADM5_LOCKED_TIME) |||
                         (K.KADM5_LAST_SUCCESS ||| K.KADM5_FAIL_AUTH_COUNT) },
          (Call.lookup_locked_time :: (lookup_lockout_policy w).calls) ++
            [Call.update_locked_time 0] ++
            [Call.put_principal
              { entry with fail_auth_count := 0, last_success := stamp, locked_time := 0,
                           mask := (0 ||| K.KADM5_LOCKED_TIME) |||
                             (K.KADM5_LAST_SUCCESS ||| K.KADM5_FAIL_AUTH_COUNT) }]⟩
      else
        ⟨Outcome.returned 0,
          { entry with fail_auth_count := 0, last_success := stamp,
                       mask := 0 ||| (K.KADM5_LAST_SUCCESS ||| K.KADM5_FAIL_AUTH_COUNT) },
          (Call.lookup_locked_time :: (lookup_lockout_policy w).calls) ++
            [Call.put_principal
              { entry with fail_auth_count := 0, last_success := stamp,
                           mask := 0 ||| (K.KADM5_LAST_SUCCESS ||| K.KADM5_FAIL_AUTH_COUNT) }]⟩ := by
  have F := hK.facts
  have hm1 : (K.KADM5_LOCKED_TIME |||
      (K.KADM5_LAST_SUCCESS ||| K.KADM5_FAIL_AUTH_COUNT)) &&& K.KADM5_LOCKED_TIME ≠ 0 := by
    simp [Nat.and_distrib_right, F.LS_L, F.FC_L, F.L_ne]
  have hm2 : (K.KADM5_LAST_SUCCESS ||| K.KADM5_FAIL_AUTH_COUNT) &&&
      K.KADM5_LOCKED_TIME = 0 := by
    simp [Nat.and_distrib_right, F.LS_L, F.FC_L]
  have hm3 : K.KADM5_LAST_SUCCESS ||| K.KADM5_FAIL_AUTH_COUNT ≠ 0 :=
    fun h => F.LS_ne ((or_eq_zero_iff_both _ _).mp h).1
  have hm4 : K.KADM5_LOCKED_TIME |||
      (K.KADM5_LAST_SUCCESS ||| K.KADM5_FAIL_AUTH_COUNT) ≠ 0 :=
    fun h => F.L_ne ((or_eq_zero_iff_both _ _).mp h).1
  unfold krb5_ldap_lockout_audit
  rw [if_neg (by simp)]
  simp only [hpol, hwin, ne_eq, not_true_eq_false, if_false, Bool.false_eq_true]
  by_cases hlt : (krb5_dbe_lookup_locked_time w entry).2 = 0
  · simp [audit_update, audit_persist, hpre, hlt, hm2, hm3, hput]
  · simp [audit_update, audit_persist, krb5_dbe_update_locked_time, hpre, hlt, hm1, hm4,
      hupd, hput]

/-- C6 (amended). For a principal with `KRB5_KDB_REQUIRES_PRE_AUTH` that is not inside an
active lock window at `stamp`, when the lock-time fetch, the policy lookup and both
writes succeed, `krb5_ldap_lockout_audit` with status `0` returns `0` and leaves the
entry with `fail_auth_count = 0`, `last_success = stamp` and no lock time; a lock time
that was set is cleared by `krb5_dbe_update_locked_time` with `0` ahead of
`krb5_ldap_put_principal`, and when none was set `krb5_ldap_put_principal` is the only
write. A stored record that agreed with the entry on the lock time ends with the
same three values. -/
theorem audit_success_with_preauth (K : Headers) (hK : K.WellFormed) (w : World)
    (entry stored : krb5_db_entry) (stamp : Int)
    (hpre : entry.attributes &&& K.KRB5_KDB_REQUIRES_PRE_AUTH ≠ 0)
    (hfetch : w.locked_time_code = 0)
    (hpol : (lookup_lockout_policy w).code = 0)
    (hwin : locked_check_p stamp entry.locked_time
      (lookup_lockout_policy w).lockout_duration = false)
    (hupd : w.update_locked_time_code = 0) (hput : w.put_principal_code = 0)
    (hst : stored.locked_time = entry.locked_time) :
    (krb5_ldap_lockout_audit K w entry stamp 0).outcome = Outcome.returned 0 ∧
    (krb5_ldap_lockout_audit K w entry stamp 0).entry.fail_auth_count = 0 ∧
    (krb5_ldap_lockout_audit K w entry stamp 0).entry.last_success = stamp ∧
    (krb5_ldap_lockout_audit K w entry stamp 0).entry.locked_time = 0 ∧
    (entry.locked_time ≠ 0 →
      (krb5_ldap_lockout_audit K w entry stamp 0).calls.filter Call.isWrite =
        [Call.update_locked_time 0,
          Call.put_principal (krb5_ldap_lockout_audit K w entry stamp 0).entry]) ∧
    (entry.locked_time = 0 →
      (krb5_ldap_lockout_audit K w entry stamp 0).calls.filter Call.isWrite =
        [Call.put_principal (krb5_ldap_lockout_audit K w entry stamp 0).entry]) ∧
    (PrincipalStore.run K w stored
      (krb5_ldap_lockout_audit K w entry stamp 0).calls).fail_auth_count = 0 ∧
    (PrincipalStore.run K w stored
      (krb5_ldap_lockout_audit K w entry stamp 0).calls).last_success = stamp ∧
    (PrincipalStore.run K w stored
      (krb5_ldap_lockout_audit K w entry stamp 0).calls).locked_time = 0 := by
  have F := hK.facts
  have hl : (krb5_dbe_lookup_locked_time w entry).2 = entry.locked_time := by
    simp [krb5_dbe_lookup_locked_time, hfetch]
  have hrun := audit_success_preauth_run K hK w entry stamp hpre hpol (by rw [hl]; exact hwin)
    hupd hput
  rw [hl] at hrun
  have hreads := lookup_calls_read w
  have hfilter : (Call.lookup_locked_time :: (lookup_lockout_policy w).calls).filter
      Call.isWrite = [] := by
    rw [List.filter_eq_nil_iff]
    intro c hc
    simp [hreads c hc]
  have hstore : PrincipalStore.run K w stored
      (Call.lookup_locked_time :: (lookup_lockout_policy w).calls) = stored :=
    store_run_reads K w _ stored hreads
  by_cases hlt : entry.locked_time = 0
  · rw [if_neg (by simp [hlt])] at hrun
    have hp := applyPatch_success K F
      { entry with fail_auth_count := 0, last_success := stamp,
                   mask := 0 ||| (K.KADM5_LAST_SUCCESS ||| K.KADM5_FAIL_AUTH_COUNT) }
      stored (by simp)
    have hs : PrincipalStore.run K w stored
        (krb5_ldap_lockout_audit K w entry stamp 0).calls =
        { stored with last_success := stamp, fail_auth_count := 0 } := by
      rw [hrun, store_run_append, hstore]
      simp only [PrincipalStore.run, List.foldl_cons, List.foldl_nil, PrincipalStore.step,
        hput, if_true, hp]
    rw [hs, hrun]
    refine ⟨rfl, rfl, rfl, hlt, fun h => absurd hlt h, fun _ => ?_, rfl, rfl, ?_⟩
    · rw [List.filter_append, hfilter]
      simp [Call.isWrite]
    · simp [hst, hlt]
  · rw [if_pos hlt] at hrun
    have hp := applyPatch_success_lock K F
      { entry with fail_auth_count := 0, last_success := stamp, locked_time := 0,
                   mask := (0 ||| K.KADM5_LOCKED_TIME) |||
                     (K.KADM5_LAST_SUCCESS ||| K.KADM5_FAIL_AUTH_COUNT) }
      { stored with locked_time := 0 } (by simp)
    have hs : PrincipalStore.run K w stored
        (krb5_ldap_lockout_audit K w entry stamp 0).calls =
        { stored with last_success := stamp, fail_auth_count := 0, locked_time := 0 } := by
      rw [hrun, store_run_append, store_run_append, hstore]
      simp only [PrincipalStore.run, List.foldl_cons, List.foldl_nil, PrincipalStore.step,
        hput, hupd, if_true, hp]
    rw [hs, hrun]
    refine ⟨rfl, rfl, rfl, rfl, fun _ => ?_, fun h => absurd h hlt, rfl, rfl, rfl⟩
    rw [List.filter_append, List.filter_append, hfilter]
    simp [Call.isWrite]

/-- Witness of C6: a stale lock at `100` (duration `60`), a success audited at `500`. -/
theorem audit_success_with_preauth_witness :
    (krb5_ldap_lockout_audit mitHeaders (World.withPolicy ⟨3, 0, 60⟩) ⟨128, 3, 99, 7, 0, 100⟩
      500 0).entry.locked_time = 0 ∧
    (PrincipalStore.run mitHeaders (World.withPolicy ⟨3, 0, 60⟩) ⟨128, 3, 99, 7, 0, 100⟩
      (krb5_ldap_lockout_audit mitHeaders (World.withPolicy ⟨3, 0, 60⟩)
        ⟨128, 3, 99, 7, 0, 100⟩ 500 0).calls).fail_auth_count = 0 :=
  ⟨(audit_success_with_preauth mitHeaders mitHeaders_wellFormed (World.withPolicy ⟨3, 0, 60⟩)
      ⟨128, 3, 99, 7, 0, 100⟩ ⟨128, 3, 99, 7, 0, 100⟩ 500 (by decide) (by decide) (by decide)
      (by decide) (by decide) (by decide) rfl).2.2.2.1,
   (audit_success_with_preauth mitHeaders mitHeaders_wellFormed (World.withPolicy ⟨3, 0, 60⟩)
      ⟨128, 3, 99, 7, 0, 100⟩ ⟨128, 3, 99, 7, 0, 100⟩ 500 (by decide) (by decide) (by decide)
      (by decide) (by decide) (by decide) rfl).2.2.2.2.2.2.1⟩

/-- Counterexample to C6 as stated: the principal requires preauthentication, carries the
lock time `100` whose window (duration `60`) is over at `200`, the policy lookup and both
writes succeed, but the lock-time fetch fails. The audit of a success returns `0`
and never calls `krb5_dbe_update_locked_time`: the lock time stays `100`, in the
entry and in the stored record. -/
theorem audit_success_fetch_failure_keeps_lock_time :
    (128 &&& mitHeaders.KRB5_KDB_REQUIRES_PRE_AUTH ≠ 0) ∧
    locked_check_p 200 100 60 = false ∧
    (lookup_lockout_policy (World.fetchFails ⟨3, 0, 60⟩)).code = 0 ∧
    (lookup_lockout_policy (World.fetchFails ⟨3, 0, 60⟩)).lockout_duration = 60 ∧
    (World.fetchFails ⟨3, 0, 60⟩).update_locked_time_code = 0 ∧
    (World.fetchFails ⟨3, 0, 60⟩).put_principal_code = 0 ∧
    (krb5_ldap_lockout_audit mitHeaders (World.fetchFails ⟨3, 0, 60⟩) ⟨128, 3, 99, 7, 0, 100⟩
      200 0).outcome = Outcome.returned 0 ∧
    (krb5_ldap_lockout_audit mitHeaders (World.fetchFails ⟨3, 0, 60⟩) ⟨128, 3, 99, 7, 0, 100⟩
      200 0).entry.locked_time = 100 ∧
    (krb5_ldap_lockout_audit mitHeaders (World.fetchFails ⟨3, 0, 60⟩) ⟨128, 3, 99, 7, 0, 100⟩
      200 0).calls.filter Call.isWrite =
        [Call.put_principal ⟨128, 0, 99, 200, 81920, 100⟩] ∧
    (audit_session mitHeaders (World.fetchFails ⟨3, 0, 60⟩) ⟨128, 3, 99, 7, 0, 100⟩
      200 0).2.locked_time = 100 := by
  decide

/-- C7 (amended). An audit does not unlock a permanently locked principal: when the
lock-time fetch and the policy lookup succeed with a non-zero `locked_time` and
`lockout_duration = 0`, `krb5_ldap_lockout_audit` with status `0` ends on its failed
assertion whether or not the principal requires preauthentication; it leaves the
entry as it was, makes no writing call, leaves any stored record as it was, and
`krb5_ldap_lockout_check_policy` on the entry it leaves still returns
`KRB5KDC_ERR_CLIENT_REVOKED` at every later stamp. -/
theorem audit_permanent_lock_stays (K : Headers) (w : World) (entry stored : krb5_db_entry)
    (stamp later : Int)
    (hfetch : w.locked_time_code = 0) (hpol : (lookup_lockout_policy w).code = 0)
    (hlt : entry.locked_time ≠ 0) (hdur : (lookup_lockout_policy w).lockout_duration = 0) :
    (krb5_ldap_lockout_audit K w entry stamp 0).outcome = Outcome.assertion_failed ∧
    (krb5_ldap_lockout_audit K w entry stamp 0).entry = entry ∧
    (∀ c ∈ (krb5_ldap_lockout_audit K w entry stamp 0).calls, c.isWrite = false) ∧
    PrincipalStore.run K w stored (krb5_ldap_lockout_audit K w entry stamp 0).calls = stored ∧
    (krb5_ldap_lockout_check_policy K w (krb5_ldap_lockout_audit K w entry stamp 0).entry
      later).code = K.KRB5KDC_ERR_CLIENT_REVOKED := by
  have hlocked : locked_check_p stamp (krb5_dbe_lookup_locked_time w entry).2
      (lookup_lockout_policy w).lockout_duration = true := by
    simp [krb5_dbe_lookup_locked_time, hfetch, locked_check_p, hlt, hdur]
  rw [audit_of_locked K w entry stamp 0 (Or.inl rfl) hpol hlocked]
  refine ⟨rfl, rfl, lookup_calls_read w, store_run_reads K w _ stored (lookup_calls_read w), ?_⟩
  simp [krb5_ldap_lockout_check_policy, krb5_dbe_lookup_locked_time, locked_check_p,
    hfetch, hlt, hpol, hdur]

/-- Witness of C7 (amended): lock time `100`, duration `0`, a success audited at `500`. -/
theorem audit_permanent_lock_stays_witness :
    (krb5_ldap_lockout_audit mitHeaders (World.withPolicy ⟨3, 0, 0⟩) ⟨128, 3, 99, 7, 0, 100⟩
      500 0).outcome = Outcome.assertion_failed :=
  (audit_permanent_lock_stays mitHeaders (World.withPolicy ⟨3, 0, 0⟩) ⟨128, 3, 99, 7, 0, 100⟩
    ⟨128, 3, 99, 7, 0, 100⟩ 500 600 (by decide) (by decide) (by decide) (by decide)).1

/-- Counterexample to C7 as stated: the principal requires preauthentication and is
permanently locked (lock time `100`, resolved duration `0`), every helper succeeds.
The audit of a success at `500` does not return: it ends on the failed assertion,
the stored lock time is still `100` and the check at `600` still returns
`KRB5KDC_ERR_CLIENT_REVOKED`. -/
theorem audit_success_permanent_lock_not_cleared :
    (128 &&& mitHeaders.KRB5_KDB_REQUIRES_PRE_AUTH ≠ 0) ∧
    (lookup_lockout_policy (World.withPolicy ⟨3, 0, 0⟩)).code = 0 ∧
    (lookup_lockout_policy (World.withPolicy ⟨3, 0, 0⟩)).lockout_duration = 0 ∧
    (audit_session mitHeaders (World.withPolicy ⟨3, 0, 0⟩) ⟨128, 3, 99, 7, 0, 100⟩
      500 0).1 ≠ Outcome.returned 0 ∧
    (audit_session mitHeaders (World.withPolicy ⟨3, 0, 0⟩) ⟨128, 3, 99, 7, 0, 100⟩
      500 0).2 = ⟨128, 3, 99, 7, 0, 100⟩ ∧
    (check_session mitHeaders (World.withPolicy ⟨3, 0, 0⟩)
      (audit_session mitHeaders (World.withPolicy ⟨3, 0, 0⟩) ⟨128, 3, 99, 7, 0, 100⟩
        500 0).2 600).1 = mitHeaders.KRB5KDC_ERR_CLIENT_REVOKED ∧
    mitHeaders.KRB5KDC_ERR_CLIENT_REVOKED ≠ 0 := by
  decide

/-- C4, evaluated. With `max_fail = 3`, no failure-count interval and a duration of
`60`, three failed preauthentications audited at `0`, `1`, `2` leave the stored record
with `fail_auth_count = 3` and no lock time: the third audit reads the count `2`,
finds it below `max_fail` and writes only `last_failed` and the increment. The
check at `60` therefore returns `0`, and it is the fourth failure, at `3`, that
sets the lock time. -/
theorem audit_third_failure_sets_no_lock :
    audit_failures mitHeaders (World.withPolicy ⟨3, 0, 60⟩) ⟨0, 0, 0, 0, 0, 0⟩ [0, 1, 2] =
      ⟨0, 3, 2, 0, 0, 0⟩ ∧
    (krb5_ldap_lockout_audit mitHeaders (World.withPolicy ⟨3, 0, 60⟩) ⟨0, 2, 1, 0, 0, 0⟩ 2
      mitHeaders.KRB5KDC_ERR_PREAUTH_FAILED).calls.filter Call.isWrite =
        [Call.put_principal ⟨0, 2, 2, 0, 557056, 0⟩] ∧
    (check_session mitHeaders (World.withPolicy ⟨3, 0, 60⟩)
      (audit_failures mitHeaders (World.withPolicy ⟨3, 0, 60⟩) ⟨0, 0, 0, 0, 0, 0⟩ [0, 1, 2])
      60).1 = 0 ∧
    audit_failures mitHeaders (World.withPolicy ⟨3, 0, 60⟩) ⟨0, 0, 0, 0, 0, 0⟩ [0, 1, 2, 3] =
      ⟨0, 4, 3, 0, 0, 3⟩ := by
  decide

/-- C5, evaluated. With `failcnt_interval = 30`, `last_failed = 0`, `fail_auth_count = 2`
and `max_fail = 3`, a bad-integrity failure audited at `40` resets the counter of the
entry to `0` but puts only the lock time, `last_failed` and the increment in the
mask, not `KADM5_FAIL_AUTH_COUNT`: the counter of the entry ends at `0` and the
stored counter, bumped by the store, ends at `3`. Neither is `1`. -/
theorem audit_stale_streak_reset_not_stored :
    (krb5_ldap_lockout_audit mitHeaders (World.withPolicy ⟨3, 30, 60⟩) ⟨0, 2, 0, 0, 0, 0⟩ 40
      mitHeaders.KRB5KRB_AP_ERR_BAD_INTEGRITY).entry = ⟨0, 0, 40, 0, 1605632, 0⟩ ∧
    1605632 = mitHeaders.KADM5_LOCKED_TIME |||
      (mitHeaders.KADM5_LAST_FAILED ||| mitHeaders.KADM5_FAIL_AUTH_COUNT_INCREMENT) ∧
    1605632 &&& mitHeaders.KADM5_FAIL_AUTH_COUNT = 0 ∧
    audit_session mitHeaders (World.withPolicy ⟨3, 30, 60⟩) ⟨0, 2, 0, 0, 0, 0⟩ 40
      mitHeaders.KRB5KRB_AP_ERR_BAD_INTEGRITY = (Outcome.returned 0, ⟨0, 3, 40, 0, 0, 0⟩) := by
  decide

/-! ## The policy lookup, `lookup_lockout_policy` -/

/-- The outcome and the entry `audit_persist` yields do not depend on the calls made before. -/
theorem audit_persist_calls_irrelevant (K : Headers) (w : World) (entry : krb5_db_entry)
    (locked_time : Int) (c1 c2 : List Call) :
    (audit_persist K w entry locked_time c1).outcome =
      (audit_persist K w entry locked_time c2).outcome ∧
    (audit_persist K w entry locked_time c1).entry =
      (audit_persist K w entry locked_time c2).entry := by
  unfold audit_persist
  simp only []
  split_ifs <;> exact ⟨rfl, rfl⟩

/-- Whatever its helpers answer, a non-zero code of `lookup_lockout_policy` is the code
of the attachment lookup, or, that lookup having succeeded, the code of the
decoding: the code of `krb5_ldap_get_password_policy` is never returned. -/
theorem lookup_lockout_policy_code_cases (w : World)
    (h : (lookup_lockout_policy w).code ≠ 0) :
    (lookup_lockout_policy w).code = w.tl_data_code ∨
      (w.tl_data_code = 0 ∧ (lookup_lockout_policy w).code = w.kadm_data_code) := by
  unfold lookup_lockout_policy at h ⊢
  by_cases h1 : w.tl_data_code ≠ 0 ∨ w.tl_data_length = 0
  · rw [if_pos h1]
    exact Or.inl rfl
  · have htl : w.tl_data_code = 0 := by
      by_cases ht : w.tl_data_code = 0
      · exact ht
      · exact absurd (Or.inl ht) h1
    rw [if_neg h1] at h ⊢
    by_cases h2 : w.kadm_data_code ≠ 0
    · rw [if_pos h2]
      exact Or.inr ⟨htl, rfl⟩
    · rw [if_neg h2] at h
      exfalso
      cases hp : w.adb_policy <;> rw [hp] at h <;> simp only [] at h <;>
        first
          | exact h rfl
          | (split_ifs at h <;> exact h rfl)

/-- C11 (amended). When a policy name is attached to the principal (the attachment
lookup and its decoding succeed) but `krb5_ldap_get_password_policy` fails or
reports a count other than `1`, `lookup_lockout_policy` does not propagate
anything: it returns `0` with `max_fail`, `failcnt_interval` and
`lockout_duration` all `0`, and `krb5_ldap_lockout_check_policy` and
`krb5_ldap_lockout_audit` go on with these defaults, ending exactly as they do
for a principal with no policy name attached. Only the errors of the attachment
lookup and of its decoding are returned: for every outcome of the helpers, a
non-zero code of `lookup_lockout_policy` is the code of the attachment lookup
or, that lookup having succeeded, the code of the decoding. -/
theorem lookup_policy_resolution_failure_defaults (K : Headers) (w : World)
    (entry : krb5_db_entry) (stamp status : Int) (name : String)
    (htl : w.tl_data_code = 0) (hlen : w.tl_data_length ≠ 0) (hdec : w.kadm_data_code = 0)
    (hname : w.adb_policy = some name)
    (hres : w.policy_code ≠ 0 ∨ w.policy_count ≠ 1) :
    (lookup_lockout_policy w).code = 0 ∧
    (lookup_lockout_policy w).max_fail = 0 ∧
    (lookup_lockout_policy w).failcnt_interval = 0 ∧
    (lookup_lockout_policy w).lockout_duration = 0 ∧
    (krb5_ldap_lockout_check_policy K w entry stamp).code =
      (krb5_ldap_lockout_check_policy K { w with adb_policy := none } entry stamp).code ∧
    (krb5_ldap_lockout_audit K w entry stamp status).outcome =
      (krb5_ldap_lockout_audit K { w with adb_policy := none } entry stamp status).outcome ∧
    (krb5_ldap_lockout_audit K w entry stamp status).entry =
      (krb5_ldap_lockout_audit K { w with adb_policy := none } entry stamp status).entry ∧
    (∀ v : World, (lookup_lockout_policy v).code ≠ 0 →
      (lookup_lockout_policy v).code = v.tl_data_code ∨
        (v.tl_data_code = 0 ∧ (lookup_lockout_policy v).code = v.kadm_data_code)) := by
  have hcond : ¬ (w.policy_code = 0 ∧ w.policy_count = 1) := by
    rintro ⟨h1, h2⟩
    rcases hres with h | h
    · exact h h1
    · exact h h2
  have hl : lookup_lockout_policy w = ⟨0, 0, 0, 0,
      [Call.lookup_tl_data, Call.lookup_tl_kadm_data, Call.get_password_policy name]⟩ := by
    simp [lookup_lockout_policy, htl, hlen, hdec, hname, hcond]
  have hl0 : lookup_lockout_policy { w with adb_policy := none } = ⟨0, 0, 0, 0,
      [Call.lookup_tl_data, Call.lookup_tl_kadm_data]⟩ := by
    simp [lookup_lockout_policy, htl, hlen, hdec]
  have hf : ∀ e : krb5_db_entry, krb5_dbe_lookup_locked_time { w with adb_policy := none } e =
      krb5_dbe_lookup_locked_time w e := fun _ => rfl
  have hp : ∀ (e : krb5_db_entry) (lt : Int) (c : List Call),
      audit_persist K { w with adb_policy := none } e lt c = audit_persist K w e lt c :=
    fun _ _ _ => rfl
  refine ⟨by rw [hl], by rw [hl], by rw [hl], by rw [hl], ?_, ?_, ?_,
    lookup_lockout_policy_code_cases⟩
  · unfold krb5_ldap_lockout_check_policy
    simp only [hl, hl0, hf]
    split_ifs <;> rfl
  · unfold krb5_ldap_lockout_audit
    simp only [hl, hl0, hf, hp]
    split_ifs <;> first
      | rfl
      | exact (audit_persist_calls_irrelevant K w _ _ _ _).1
  · unfold krb5_ldap_lockout_audit
    simp only [hl, hl0, hf, hp]
    split_ifs <;> first
      | rfl
      | exact (audit_persist_calls_irrelevant K w _ _ _ _).2

/-- Witness of C11 (amended): the policy resolution fails with code `5` for a principal
whose lock time is `100`; the lookup returns `0` with a zero duration. -/
theorem lookup_policy_resolution_failure_defaults_witness :
    (lookup_lockout_policy (World.policyFails ⟨3, 30, 60⟩)).code = 0 ∧
    (lookup_lockout_policy (World.policyFails ⟨3, 30, 60⟩)).lockout_duration = 0 :=
  ⟨(lookup_policy_resolution_failure_defaults mitHeaders (World.policyFails ⟨3, 30, 60⟩)
      ⟨128, 3, 99, 7, 0, 100⟩ 500 0 "policy" (by decide) (by decide) (by decide) rfl
      (Or.inl (by decide))).1,
   (lookup_policy_resolution_failure_defaults mitHeaders (World.policyFails ⟨3, 30, 60⟩)
      ⟨128, 3, 99, 7, 0, 100⟩ 500 0 "policy" (by decide) (by decide) (by decide) rfl
      (Or.inl (by decide))).2.2.2.1⟩

/-- Counterexample to C11 as stated: a policy name is attached and its resolution fails
in the store with code `5`, or yields two objects. In both cases
`lookup_lockout_policy` returns `0`, not an error; the check of a principal
locked at `100` returns `KRB5KDC_ERR_CLIENT_REVOKED` (the zero duration makes
the lock permanent), not the store error; and the audit of a failed
preauthentication of an unlocked principal returns `0` and writes the entry. -/
theorem lookup_policy_resolution_failure_not_propagated :
    (World.policyFails ⟨3, 30, 60⟩).adb_policy = some "policy" ∧
    (World.policyFails ⟨3, 30, 60⟩).policy_code = 5 ∧
    (lookup_lockout_policy (World.policyFails ⟨3, 30, 60⟩)).code = 0 ∧
    (World.policyAmbiguous ⟨3, 30, 60⟩).policy_count = 2 ∧
    (lookup_lockout_policy (World.policyAmbiguous ⟨3, 30, 60⟩)).code = 0 ∧
    (krb5_ldap_lockout_check_policy mitHeaders (World.policyFails ⟨3, 30, 60⟩)
      ⟨128, 3, 99, 7, 0, 100⟩ 500).code = mitHeaders.KRB5KDC_ERR_CLIENT_REVOKED ∧
    mitHeaders.KRB5KDC_ERR_CLIENT_REVOKED ≠ 5 ∧
    (krb5_ldap_lockout_audit mitHeaders (World.policyFails ⟨3, 30, 60⟩)
      ⟨128, 3, 99, 7, 0, 0⟩ 500 mitHeaders.KRB5KDC_ERR_PREAUTH_FAILED).outcome =
        Outcome.returned 0 ∧
    (krb5_ldap_lockout_audit mitHeaders (World.policyFails ⟨3, 30, 60⟩)
      ⟨128, 3, 99, 7, 0, 0⟩ 500 mitHeaders.KRB5KDC_ERR_PREAUTH_FAILED).calls.filter
        Call.isWrite = [Call.put_principal ⟨128, 3, 500, 7, 557056, 0⟩] := by
  decide

/-- C12. `lookup_lockout_policy` returns `0` with `max_fail`, `failcnt_interval` and
`lockout_duration` all `0` when no policy is attached, that is when the
attachment lookup succeeds with an empty attachment or the attachment decodes to
a record without policy name; whenever it returns a non-zero code the three are
`0` as well; and if one of the three is not `0`, then a policy name was
attached, `krb5_ldap_get_password_policy` returned `0` with a count of `1`, and
the three are the fields of that policy. -/
theorem lookup_policy_defaults (w : World) :
    (w.tl_data_code = 0 → w.tl_data_length = 0 →
      (lookup_lockout_policy w).code = 0 ∧ (lookup_lockout_policy w).max_fail = 0 ∧
      (lookup_lockout_policy w).failcnt_interval = 0 ∧
      (lookup_lockout_policy w).lockout_duration = 0) ∧
    (w.tl_data_code = 0 → w.kadm_data_code = 0 → w.adb_policy = none →
      (lookup_lockout_policy w).code = 0 ∧ (lookup_lockout_policy w).max_fail = 0 ∧
      (lookup_lockout_policy w).failcnt_interval = 0 ∧
      (lookup_lockout_policy w).lockout_duration = 0) ∧
    ((lookup_lockout_policy w).code ≠ 0 →
      (lookup_lockout_policy w).max_fail = 0 ∧
      (lookup_lockout_policy w).failcnt_interval = 0 ∧
      (lookup_lockout_policy w).lockout_duration = 0) ∧
    (((lookup_lockout_policy w).max_fail ≠ 0 ∨ (lookup_lockout_policy w).failcnt_interval ≠ 0 ∨
        (lookup_lockout_policy w).lockout_duration ≠ 0) →
      w.adb_policy.isSome = true ∧ w.policy_code = 0 ∧ w.policy_count = 1 ∧
      (lookup_lockout_policy w).max_fail = w.policy.pw_max_fail ∧
      (lookup_lockout_policy w).failcnt_interval = w.policy.pw_failcnt_interval ∧
      (lookup_lockout_policy w).lockout_duration = w.policy.pw_lockout_duration) := by
  refine ⟨?_, ?_, ?_, ?_⟩
  · intro h1 h2
    simp [lookup_lockout_policy, h1, h2]
  · intro h1 h2 h3
    unfold lookup_lockout_policy
    rw [h3]
    simp only [h1, h2]
    split_ifs <;> exact ⟨rfl, rfl, rfl, rfl⟩
  · intro h
    unfold lookup_lockout_policy at h ⊢
    cases hp : w.adb_policy <;> rw [hp] at h <;> simp only [] at h ⊢ <;>
      split_ifs at h ⊢ <;> first | exact ⟨rfl, rfl, rfl⟩ | exact absurd rfl h
  · intro h
    unfold lookup_lockout_policy at h ⊢
    cases hp : w.adb_policy <;> rw [hp] at h <;> simp only [] at h ⊢ <;>
      split_ifs at h ⊢ <;> first
        | (rename_i h3; exact ⟨rfl, h3.1, h3.2, rfl, rfl, rfl⟩)
        | (exfalso; rcases h with h | h | h <;> exact h rfl)

/-- Witness of C12: an empty attachment gives the zero parameters, and a lookup that
fails with code `5` leaves them zero. -/
theorem lookup_policy_defaults_witness :
    (lookup_lockout_policy ⟨0, 0, 0, 0, none, 0, 0, ⟨3, 30, 60⟩, 0, 0⟩).lockout_duration = 0 ∧
    (lookup_lockout_policy ⟨0, 5, 1, 0, some "policy", 0, 1, ⟨3, 30, 60⟩, 0, 0⟩).max_fail = 0 :=
  ⟨((lookup_policy_defaults ⟨0, 0, 0, 0, none, 0, 0, ⟨3, 30, 60⟩, 0, 0⟩).1 rfl rfl).2.2.2,
   ((lookup_policy_defaults ⟨0, 5, 1, 0, some "policy", 0, 1, ⟨3, 30, 60⟩, 0, 0⟩).2.2.1
      (by decide)).1⟩

/-! ## Shape of an audit that passes the assertion -/

/-- The `switch` of lines 149-156: another status ends the call at once. -/
theorem audit_of_other_status (K : Headers) (w : World) (entry : krb5_db_entry)
    (stamp status : Int)
    (hsw : status ≠ 0 ∧ status ≠ K.KRB5KDC_ERR_PREAUTH_FAILED ∧
      status ≠ K.KRB5KRB_AP_ERR_BAD_INTEGRITY) :
    krb5_ldap_lockout_audit K w entry stamp status = ⟨Outcome.returned 0, entry, []⟩ := by
  unfold krb5_ldap_lockout_audit
  rw [if_pos hsw]

/-- Lines 160-164: a failed policy lookup ends the call with its code. -/
theorem audit_of_policy_error (K : Headers) (w : World) (entry : krb5_db_entry)
    (stamp status : Int)
    (hstatus : status = 0 ∨ status = K.KRB5KDC_ERR_PREAUTH_FAILED ∨
      status = K.KRB5KRB_AP_ERR_BAD_INTEGRITY)
    (hpol : (lookup_lockout_policy w).code ≠ 0) :
    krb5_ldap_lockout_audit K w entry stamp status =
      ⟨Outcome.returned (lookup_lockout_policy w).code, entry,
        Call.lookup_locked_time :: (lookup_lockout_policy w).calls⟩ := by
  have hsw : ¬ (status ≠ 0 ∧ status ≠ K.KRB5KDC_ERR_PREAUTH_FAILED ∧
      status ≠ K.KRB5KRB_AP_ERR_BAD_INTEGRITY) := by
    rcases hstatus with h | h | h <;> simp [h]
  unfold krb5_ldap_lockout_audit
  rw [if_neg hsw]
  simp [hpol]

/-- A recognised status, a successful policy lookup and an assertion that passes:
the call is the update of lines 170-200 on the entry with a cleared mask,
followed by the writes of lines 202-215. -/
theorem audit_of_passed (K : Headers) (w : World) (entry : krb5_db_entry) (stamp status : Int)
    (hstatus : status = 0 ∨ status = K.KRB5KDC_ERR_PREAUTH_FAILED ∨
      status = K.KRB5KRB_AP_ERR_BAD_INTEGRITY)
    (hpol : (lookup_lockout_policy w).code = 0)
    (hwin : locked_check_p stamp (krb5_dbe_lookup_locked_time w entry).2
      (lookup_lockout_policy w).lockout_duration = false) :
    krb5_ldap_lockout_audit K w entry stamp status =
      audit_persist K w
        (audit_update K stamp status (lookup_lockout_policy w).max_fail
          (lookup_lockout_policy w).failcnt_interval { entry with mask := 0 }
          (krb5_dbe_lookup_locked_time w entry).2).1
        (audit_update K stamp status (lookup_lockout_policy w).max_fail
          (lookup_lockout_policy w).failcnt_interval { entry with mask := 0 }
          (krb5_dbe_lookup_locked_time w entry).2).2
        (Call.lookup_locked_time :: (lookup_lockout_policy w).calls) := by
  have hsw : ¬ (status ≠ 0 ∧ status ≠ K.KRB5KDC_ERR_PREAUTH_FAILED ∧
      status ≠ K.KRB5KRB_AP_ERR_BAD_INTEGRITY) := by
    rcases hstatus with h | h | h <;> simp [h]
  unfold krb5_ldap_lockout_audit
  rw [if_neg hsw]
  simp [hpol, hwin]

/-- A writing call is among reading calls followed by `ws` exactly when it is in `ws`. -/
theorem mem_append_reads_iff (reads ws : List Call) (c : Call)
    (hr : ∀ d ∈ reads, d.isWrite = false) (hc : c.isWrite = true) :
    c ∈ reads ++ ws ↔ c ∈ ws := by
  rw [List.mem_append]
  constructor
  · rintro (h | h)
    · rw [hr c h] at hc
      cases hc
    · exact h
  · exact Or.inr

/-- The writes of lines 202-215 when `KADM5_LOCKED_TIME` is in the mask. -/
theorem audit_persist_locked (K : Headers) (w : World) (e : krb5_db_entry) (lt : Int)
    (c : List Call) (hm : e.mask &&& K.KADM5_LOCKED_TIME ≠ 0) :
    audit_persist K w e lt c =
      if w.update_locked_time_code ≠ 0 then
        ⟨Outcome.returned w.update_locked_time_code, e, c ++ [Call.update_locked_time lt]⟩
      else
        ⟨Outcome.returned w.put_principal_code, { e with locked_time := lt },
          c ++ [Call.update_locked_time lt,
            Call.put_principal { e with locked_time := lt }]⟩ := by
  have hne : e.mask ≠ 0 := by
    intro h
    rw [h, Nat.zero_and] at hm
    exact hm rfl
  unfold audit_persist krb5_dbe_update_locked_time
  rw [if_pos hm]
  by_cases hu : w.update_locked_time_code = 0
  · by_cases hp : w.put_principal_code = 0
    · simp [hu, hp, hne]
    · simp [hu, hp, hne]
  · simp [hu]

/-- The writes of lines 202-215 when `KADM5_LOCKED_TIME` is not in the mask. -/
theorem audit_persist_unlocked (K : Headers) (w : World) (e : krb5_db_entry) (lt : Int)
    (c : List Call) (hm : e.mask &&& K.KADM5_LOCKED_TIME = 0) :
    audit_persist K w e lt c =
      if e.mask ≠ 0 then
        ⟨Outcome.returned w.put_principal_code, e, c ++ [Call.put_principal e]⟩
      else
        ⟨Outcome.returned 0, e, c⟩ := by
  unfold audit_persist
  rw [if_neg (by simp [hm])]
  by_cases hne : e.mask = 0
  · simp [hne]
  · by_cases hp : w.put_principal_code = 0
    · simp [hne, hp]
    · simp [hne, hp]

/-! ## Expiry and overflow in the evaluator -/

/-- C16 (amended). When the lock-time fetch and the policy lookup succeed,
`krb5_ldap_lockout_check_policy` returns `0` exactly when the lock time is `0`
or the lock window is over, that is `lockout_duration` is not `0` and `stamp` is
not below `locked_time + lockout_duration` (the 32-bit sum the code computes). -/
theorem check_policy_success_iff (K : Headers) (hrev : K.KRB5KDC_ERR_CLIENT_REVOKED ≠ 0)
    (w : World) (entry : krb5_db_entry) (stamp : Int)
    (hfetch : w.locked_time_code = 0) (hpol : (lookup_lockout_policy w).code = 0) :
    (krb5_ldap_lockout_check_policy K w entry stamp).code = 0 ↔
      (entry.locked_time = 0 ∨
        ((lookup_lockout_policy w).lockout_duration ≠ 0 ∧
          ¬ stamp < add32 entry.locked_time (lookup_lockout_policy w).lockout_duration)) := by
  by_cases hlt : entry.locked_time = 0
  · simp [krb5_ldap_lockout_check_policy, krb5_dbe_lookup_locked_time, hfetch, hlt]
  · by_cases hd : (lookup_lockout_policy w).lockout_duration = 0
    · simp [krb5_ldap_lockout_check_policy, krb5_dbe_lookup_locked_time, locked_check_p,
        hfetch, hlt, hpol, hd, hrev]
    · by_cases hs : stamp < add32 entry.locked_time (lookup_lockout_policy w).lockout_duration
      · simp [krb5_ldap_lockout_check_policy, krb5_dbe_lookup_locked_time, locked_check_p,
          hfetch, hlt, hpol, hd, hs, hrev]
      · simp [krb5_ldap_lockout_check_policy, krb5_dbe_lookup_locked_time, locked_check_p,
          hfetch, hlt, hpol, hd, hs]

/-- Witness of C16 (amended): lock time `100`, duration `60`; the check returns `0` at `160`. -/
theorem check_policy_success_iff_witness :
    (krb5_ldap_lockout_check_policy mitHeaders (World.withPolicy ⟨3, 0, 60⟩)
      ⟨0, 3, 99, 0, 0, 100⟩ 160).code = 0 :=
  (check_policy_success_iff mitHeaders (by decide) (World.withPolicy ⟨3, 0, 60⟩)
    ⟨0, 3, 99, 0, 0, 100⟩ 160 (by decide) (by decide)).mpr (Or.inr (by decide))

/-- Counterexample to C16 as stated: both lookups succeed, the lock time is `100`, not
absent, and the check at `160`, past the window of `60`, returns `0`. -/
theorem check_policy_success_with_lock_time_set :
    (World.withPolicy ⟨3, 0, 60⟩).locked_time_code = 0 ∧
    (lookup_lockout_policy (World.withPolicy ⟨3, 0, 60⟩)).code = 0 ∧
    (⟨0, 3, 99, 0, 0, 100⟩ : krb5_db_entry).locked_time ≠ 0 ∧
    (krb5_ldap_lockout_check_policy mitHeaders (World.withPolicy ⟨3, 0, 60⟩)
      ⟨0, 3, 99, 0, 0, 100⟩ 160).code = 0 := by
  decide

/-- C20 (amended). For every `locked_time > 0` and `lockout_duration > 0` whose sum
does not exceed `2^31 - 1`, `locked_check_p` at `stamp = locked_time` is true: a
timed lock is reported active at the instant it is set. -/
theorem locked_check_p_at_lock_instant (locked_time lockout_duration : Int)
    (hlt : 0 < locked_time) (hdur : 0 < lockout_duration)
    (hsum : locked_time + lockout_duration ≤ 2147483647) :
    locked_check_p locked_time locked_time lockout_duration = true := by
  have hadd := add32_of_range locked_time lockout_duration (by omega) hsum
  unfold locked_check_p
  rw [if_neg (by omega), if_neg (by omega), hadd]
  exact decide_eq_true (by omega)

/-- Witness of C20 (amended): a lock set at `100` for `60` seconds is active at `100`. -/
theorem locked_check_p_at_lock_instant_witness : locked_check_p 100 100 60 = true :=
  locked_check_p_at_lock_instant 100 60 (by decide) (by decide) (by decide)

/-- Counterexample to C20 as stated: with `locked_time = 1700000000` and
`lockout_duration = 500000000`, both positive, the 32-bit sum wraps to
`-2094967296`, so `locked_check_p` at the very instant of the lock is false and
`krb5_ldap_lockout_check_policy` returns `0`; the same happens at the top of the
range, `locked_time = 2147483647` with a duration of `1`. -/
theorem locked_check_p_wraps_at_lock_instant :
    add32 1700000000 500000000 = -2094967296 ∧
    locked_check_p 1700000000 1700000000 500000000 = false ∧
    (krb5_ldap_lockout_check_policy mitHeaders (World.withPolicy ⟨3, 0, 500000000⟩)
      ⟨0, 3, 1700000000, 0, 0, 1700000000⟩ 1700000000).code = 0 ∧
    add32 2147483647 1 = -2147483648 ∧
    locked_check_p 2147483647 2147483647 1 = false := by
  decide

/-! ## The stale-streak reset -/

/-- C19. In the audit of a failed preauthentication or a bad integrity in which the
stale-streak reset fires (the policy is resolved, the assertion passes,
`failcnt_interval` is not `0` and `stamp` is above `last_failed + failcnt_interval`,
the 32-bit sum), whatever `max_fail` and the prior `fail_auth_count` are: the
entry leaves with `fail_auth_count = 0`, `krb5_dbe_update_locked_time` is called,
every lock time handed to it is `0`, and every entry handed to
`krb5_ldap_put_principal` carries the lock time `0`. The threshold test runs on
the reset counter and does not set the lock time again. -/
theorem audit_stale_reset_writes_zero_lock_time (K : Headers) (hK : K.WellFormed) (w : World)
    (entry : krb5_db_entry) (stamp status : Int)
    (hstatus : status = K.KRB5KDC_ERR_PREAUTH_FAILED ∨
      status = K.KRB5KRB_AP_ERR_BAD_INTEGRITY)
    (hpol : (lookup_lockout_policy w).code = 0)
    (hwin : locked_check_p stamp (krb5_dbe_lookup_locked_time w entry).2
      (lookup_lockout_policy w).lockout_duration = false)
    (hint : (lookup_lockout_policy w).failcnt_interval ≠ 0)
    (hstale : stamp > add32 entry.last_failed (lookup_lockout_policy w).failcnt_interval) :
    (krb5_ldap_lockout_audit K w entry stamp status).entry.fail_auth_count = 0 ∧
    Call.update_locked_time 0 ∈ (krb5_ldap_lockout_audit K w entry stamp status).calls ∧
    (∀ t, Call.update_locked_time t ∈ (krb5_ldap_lockout_audit K w entry stamp status).calls →
      t = 0) ∧
    (∀ e, Call.put_principal e ∈ (krb5_ldap_lockout_audit K w entry stamp status).calls →
      e.locked_time = 0) := by
  have F := hK.facts
  have hne0 : status ≠ 0 := by
    rcases hstatus with h | h
    · rw [h]; exact hK.2.1
    · rw [h]; exact hK.2.2.1
  have hreads := lookup_calls_read w
  have hu : audit_update K stamp status (lookup_lockout_policy w).max_fail
      (lookup_lockout_policy w).failcnt_interval { entry with mask := 0 }
      (krb5_dbe_lookup_locked_time w entry).2 =
      ({ entry with fail_auth_count := 0, last_failed := stamp,
                    mask := K.KADM5_LOCKED_TIME |||
                      (K.KADM5_LAST_FAILED ||| K.KADM5_FAIL_AUTH_COUNT_INCREMENT) }, 0) := by
    simp [audit_update, hne0, hstatus, hint, hstale]
  have hm : (K.KADM5_LOCKED_TIME |||
      (K.KADM5_LAST_FAILED ||| K.KADM5_FAIL_AUTH_COUNT_INCREMENT)) &&&
      K.KADM5_LOCKED_TIME ≠ 0 := by
    simp [and_or_eq_zero, F.L_ne]
  rw [audit_of_passed K w entry stamp status (Or.inr hstatus) hpol hwin, hu,
    audit_persist_locked K w _ 0 _ hm]
  by_cases hc : w.update_locked_time_code = 0
  · rw [if_neg (by simp [hc])]
    refine ⟨rfl, by simp, ?_, ?_⟩
    · intro t ht
      rw [mem_append_reads_iff _ _ (Call.update_locked_time t) hreads rfl] at ht
      simpa using ht
    · intro e he
      rw [mem_append_reads_iff _ _ (Call.put_principal e) hreads rfl] at he
      simp at he
      rw [he]
  · rw [if_pos hc]
    refine ⟨rfl, by simp, ?_, ?_⟩
    · intro t ht
      rw [mem_append_reads_iff _ _ (Call.update_locked_time t) hreads rfl] at ht
      simpa using ht
    · intro e he
      rw [mem_append_reads_iff _ _ (Call.put_principal e) hreads rfl] at he
      simp at he

/-- Witness of C19: `max_fail = 1`, `failcnt_interval = 30`, five earlier failures the
last of which was at `0`, a stale lock at `5`, and a bad integrity audited at `100`. -/
theorem audit_stale_reset_writes_zero_lock_time_witness :
    (krb5_ldap_lockout_audit mitHeaders (World.withPolicy ⟨1, 30, 60⟩) ⟨0, 5, 0, 0, 0, 5⟩ 100
      mitHeaders.KRB5KRB_AP_ERR_BAD_INTEGRITY).entry.fail_auth_count = 0 ∧
    Call.update_locked_time 0 ∈
      (krb5_ldap_lockout_audit mitHeaders (World.withPolicy ⟨1, 30, 60⟩) ⟨0, 5, 0, 0, 0, 5⟩ 100
        mitHeaders.KRB5KRB_AP_ERR_BAD_INTEGRITY).calls :=
  ⟨(audit_stale_reset_writes_zero_lock_time mitHeaders mitHeaders_wellFormed
      (World.withPolicy ⟨1, 30, 60⟩) ⟨0, 5, 0, 0, 0, 5⟩ 100
      mitHeaders.KRB5KRB_AP_ERR_BAD_INTEGRITY (Or.inr rfl) (by decide) (by decide) (by decide)
      (by decide)).1,
   (audit_stale_reset_writes_zero_lock_time mitHeaders mitHeaders_wellFormed
      (World.withPolicy ⟨1, 30, 60⟩) ⟨0, 5, 0, 0, 0, 5⟩ 100
      mitHeaders.KRB5KRB_AP_ERR_BAD_INTEGRITY (Or.inr rfl) (by decide) (by decide) (by decide)
      (by decide)).2.1⟩

/-! ## Write failures -/

theorem filter_reads (reads : List Call) (hr : ∀ d ∈ reads, d.isWrite = false) :
    reads.filter Call.isWrite = [] := by
  rw [List.filter_eq_nil_iff]
  intro c hc
  simp [hr c hc]

/-- A result whose calls only read surfaces its write failures: it has none. -/
theorem surfaces_of_reads (K : Headers) (w : World) (stored : krb5_db_entry) (r : AuditResult)
    (hr : ∀ d ∈ r.calls, d.isWrite = false) : SurfacesWriteFailures K w stored r := by
  have hu : ∀ t, Call.update_locked_time t ∉ r.calls := fun t h => by
    have := hr _ h
    simp [Call.isWrite] at this
  have hp : ∀ e, Call.put_principal e ∉ r.calls := fun e h => by
    have := hr _ h
    simp [Call.isWrite] at this
  refine ⟨fun _ t ht => absurd ht (hu t), fun _ e he => absurd he (hp e),
    fun _ => ⟨fun t ht => absurd ht (hu t), fun e he => absurd he (hp e)⟩,
    Or.inl (filter_reads _ hr)⟩

/-- The writes of lines 202-215, made after calls that only read, surface their failures. -/
theorem surfaces_of_persist (K : Headers) (w : World) (stored e : krb5_db_entry) (lt : Int)
    (c : List Call) (hr : ∀ d ∈ c, d.isWrite = false) :
    SurfacesWriteFailures K w stored (audit_persist K w e lt c) := by
  have hf := filter_reads c hr
  have hs : PrincipalStore.run K w stored c = stored := store_run_reads K w c stored hr
  by_cases hm : e.mask &&& K.KADM5_LOCKED_TIME = 0
  · rw [audit_persist_unlocked K w e lt c hm]
    by_cases hne : e.mask = 0
    · rw [if_neg (by simp [hne])]
      exact surfaces_of_reads K w stored _ hr
    · rw [if_pos hne]
      refine ⟨?_, ?_, ?_, ?_⟩
      · intro _ t ht
        rw [mem_append_reads_iff _ _ (Call.update_locked_time t) hr rfl] at ht
        simp at ht
      · intro _ d hd
        refine ⟨rfl, ?_⟩
        intro t ht
        rw [mem_append_reads_iff _ _ (Call.update_locked_time t) hr rfl] at ht
        simp at ht
      · intro h0
        refine ⟨?_, ?_⟩
        · intro t ht
          rw [mem_append_reads_iff _ _ (Call.update_locked_time t) hr rfl] at ht
          simp at ht
        · intro _ _
          simpa using h0
      · refine Or.inr (Or.inl ⟨e, ?_⟩)
        rw [List.filter_append, hf]
        simp [Call.isWrite]
  · rw [audit_persist_locked K w e lt c hm]
    by_cases hu : w.update_locked_time_code = 0
    · rw [if_neg (by simp [hu])]
      refine ⟨fun h => absurd hu h, ?_, ?_, ?_⟩
      · intro _ d hd
        refine ⟨rfl, ?_⟩
        intro t ht
        rw [mem_append_reads_iff _ _ (Call.update_locked_time t) hr rfl] at ht
        have htl : t = lt := by simpa using ht
        subst htl
        refine ⟨hu, rfl, ?_⟩
        rw [store_run_append, hs]
        by_cases hp : w.put_principal_code = 0
        · simp [PrincipalStore.run, PrincipalStore.step, PrincipalStore.applyPatch, hu, hp, hm]
        · simp [PrincipalStore.run, PrincipalStore.step, hu, hp]
      · intro h0
        refine ⟨fun _ _ => hu, fun _ _ => ?_⟩
        simpa using h0
      · refine Or.inr (Or.inr (Or.inr ⟨lt, { e with locked_time := lt }, ?_⟩))
        rw [List.filter_append, hf]
        simp [Call.isWrite]
    · rw [if_pos hu]
      refine ⟨?_, ?_, ?_, ?_⟩
      · intro _ t _
        refine ⟨rfl, ?_⟩
        intro d hd
        rw [mem_append_reads_iff _ _ (Call.put_principal d) hr rfl] at hd
        simp at hd
      · intro _ d hd
        rw [mem_append_reads_iff _ _ (Call.put_principal d) hr rfl] at hd
        simp at hd
      · intro h0
        exact absurd (by simpa using h0) hu
      · refine Or.inr (Or.inr (Or.inl ⟨lt, ?_⟩))
        rw [List.filter_append, hf]
        simp [Call.isWrite]

/-- Every call of `krb5_ldap_lockout_audit` surfaces its write failures. -/
theorem surfaces_of_audit (K : Headers) (w : World) (entry stored : krb5_db_entry)
    (stamp status : Int) :
    SurfacesWriteFailures K w stored (krb5_ldap_lockout_audit K w entry stamp status) := by
  have hreads := lookup_calls_read w
  unfold krb5_ldap_lockout_audit
  simp only []
  split_ifs
  · exact surfaces_of_reads K w stored _ (by simp)
  · exact surfaces_of_reads K w stored _ hreads
  · exact surfaces_of_reads K w stored _ hreads
  · exact surfaces_of_persist K w stored _ _ _ hreads

/-- C14. For every call of `krb5_ldap_lockout_audit`, whatever the helpers answer:
if `krb5_dbe_update_locked_time` is called and fails, the call returns exactly
its code and `krb5_ldap_put_principal` is not called; if
`krb5_ldap_put_principal` is called and fails, the call returns exactly its code
and a lock-time update made before it stays in place, in the entry and in the
stored record; the call returns `0` only if every write it made succeeded; and
nothing is retried: the writes made are none, the entry write alone, the
lock-time update alone, or the lock-time update followed by the entry write. -/
theorem audit_surfaces_write_failures (K : Headers) (w : World)
    (entry stored : krb5_db_entry) (stamp status : Int) :
    (w.update_locked_time_code ≠ 0 →
      ∀ t, Call.update_locked_time t ∈ (krb5_ldap_lockout_audit K w entry stamp status).calls →
        (krb5_ldap_lockout_audit K w entry stamp status).outcome =
          Outcome.returned w.update_locked_time_code ∧
        ∀ e, Call.put_principal e ∉ (krb5_ldap_lockout_audit K w entry stamp status).calls) ∧
    (w.put_principal_code ≠ 0 →
      ∀ e, Call.put_principal e ∈ (krb5_ldap_lockout_audit K w entry stamp status).calls →
        (krb5_ldap_lockout_audit K w entry stamp status).outcome =
          Outcome.returned w.put_principal_code ∧
        ∀ t, Call.update_locked_time t ∈
            (krb5_ldap_lockout_audit K w entry stamp status).calls →
          w.update_locked_time_code = 0 ∧
          (krb5_ldap_lockout_audit K w entry stamp status).entry.locked_time = t ∧
          (PrincipalStore.run K w stored
            (krb5_ldap_lockout_audit K w entry stamp status).calls).locked_time = t) ∧
    ((krb5_ldap_lockout_audit K w entry stamp status).outcome = Outcome.returned 0 →
      (∀ t, Call.update_locked_time t ∈
          (krb5_ldap_lockout_audit K w entry stamp status).calls →
        w.update_locked_time_code = 0) ∧
      (∀ e, Call.put_principal e ∈ (krb5_ldap_lockout_audit K w entry stamp status).calls →
        w.put_principal_code = 0)) ∧
    ((krb5_ldap_lockout_audit K w entry stamp status).calls.filter Call.isWrite = [] ∨
      (∃ e, (krb5_ldap_lockout_audit K w entry stamp status).calls.filter Call.isWrite =
        [Call.put_principal e]) ∨
      (∃ t, (krb5_ldap_lockout_audit K w entry stamp status).calls.filter Call.isWrite =
        [Call.update_locked_time t]) ∨
      (∃ t e, (krb5_ldap_lockout_audit K w entry stamp status).calls.filter Call.isWrite =
        [Call.update_locked_time t, Call.put_principal e])) :=
  surfaces_of_audit K w entry stored stamp status

/-- Witness of C14: the stale-streak reset calls `krb5_dbe_update_locked_time`, which fails
with code `7`; the audit returns `7`. -/
theorem audit_surfaces_write_failures_witness :
    (krb5_ldap_lockout_audit mitHeaders (World.updateFails ⟨3, 30, 60⟩) ⟨0, 2, 0, 0, 0, 0⟩ 40
      mitHeaders.KRB5KRB_AP_ERR_BAD_INTEGRITY).outcome = Outcome.returned 7 :=
  ((audit_surfaces_write_failures mitHeaders (World.updateFails ⟨3, 30, 60⟩)
    ⟨0, 2, 0, 0, 0, 0⟩ ⟨0, 2, 0, 0, 0, 0⟩ 40 mitHeaders.KRB5KRB_AP_ERR_BAD_INTEGRITY).1
    (by decide) 0 (by decide)).1

/-! ## A failed lock-time fetch -/

/-- Lines 170-200 neither read nor write the lock time the entry carries. -/
theorem audit_update_lock_time_frame (K : Headers) (stamp status : Int) (max_fail : Nat)
    (failcnt_interval : Int) (e : krb5_db_entry) (lt x : Int) :
    audit_update K stamp status max_fail failcnt_interval { e with locked_time := x } lt =
      ({ (audit_update K stamp status max_fail failcnt_interval e lt).1 with locked_time := x },
        (audit_update K stamp status max_fail failcnt_interval e lt).2) := by
  unfold audit_update
  simp only []
  split_ifs <;> rfl

/-- The masked update does not read the lock time of the entry when
`KADM5_LOCKED_TIME` is not in the mask. -/
theorem applyPatch_lock_time_frame (K : Headers) (e r : krb5_db_entry) (x : Int)
    (hm : e.mask &&& K.KADM5_LOCKED_TIME = 0) :
    PrincipalStore.applyPatch K { e with locked_time := x } r =
      PrincipalStore.applyPatch K e r := by
  simp [PrincipalStore.applyPatch, hm]

/-- The writes of lines 202-215 for an entry and for the same entry without lock
time: same outcome, same fields but the lock time carried, same calls, same
stored record. -/
theorem audit_persist_lock_time_frame (K : Headers) (w : World) (e stored : krb5_db_entry)
    (lt : Int) (c : List Call) :
    (audit_persist K w e lt c).outcome =
      (audit_persist K w { e with locked_time := 0 } lt c).outcome ∧
    { (audit_persist K w e lt c).entry with locked_time := 0 } =
      { (audit_persist K w { e with locked_time := 0 } lt c).entry with locked_time := 0 } ∧
    (audit_persist K w e lt c).calls.map Call.withoutLockTime =
      (audit_persist K w { e with locked_time := 0 } lt c).calls.map Call.withoutLockTime ∧
    PrincipalStore.run K w stored (audit_persist K w e lt c).calls =
      PrincipalStore.run K w stored
        (audit_persist K w { e with locked_time := 0 } lt c).calls := by
  by_cases hm : e.mask &&& K.KADM5_LOCKED_TIME = 0
  · rw [audit_persist_unlocked K w e lt c hm,
      audit_persist_unlocked K w { e with locked_time := 0 } lt c hm]
    by_cases hne : e.mask = 0
    · simp [hne]
    · rw [if_pos hne, if_pos hne]
      refine ⟨rfl, rfl, ?_, ?_⟩
      · simp [Call.withoutLockTime]
      · rw [store_run_append, store_run_append]
        simp only [PrincipalStore.run, List.foldl_cons, List.foldl_nil, PrincipalStore.step,
          applyPatch_lock_time_frame K e _ 0 hm]
  · rw [audit_persist_locked K w e lt c hm,
      audit_persist_locked K w { e with locked_time := 0 } lt c hm]
    by_cases hu : w.update_locked_time_code = 0
    · simp [hu]
    · simp [hu]

/-- C13. When the lock-time fetch fails, `krb5_ldap_lockout_audit` drops the failure
and ends as it does when the fetch succeeds for the same principal without lock
time: for every status, policy and stamp the outcome is the same and is never
the failed assertion, the fields of the entry other than the lock time it
carries are the same, the calls are the same (kind, lock time handed to the
update, mask and fields handed to the entry write), and any stored record ends
the same. -/
theorem audit_fetch_failure_as_absent (K : Headers) (w : World) (entry stored : krb5_db_entry)
    (stamp status : Int) (hfail : w.locked_time_code ≠ 0) :
    (krb5_ldap_lockout_audit K w entry stamp status).outcome =
      (krb5_ldap_lockout_audit K { w with locked_time_code := 0 }
        { entry with locked_time := 0 } stamp status).outcome ∧
    (krb5_ldap_lockout_audit K w entry stamp status).outcome ≠ Outcome.assertion_failed ∧
    { (krb5_ldap_lockout_audit K w entry stamp status).entry with locked_time := 0 } =
      { (krb5_ldap_lockout_audit K { w with locked_time_code := 0 }
          { entry with locked_time := 0 } stamp status).entry with locked_time := 0 } ∧
    (krb5_ldap_lockout_audit K w entry stamp status).calls.map Call.withoutLockTime =
      (krb5_ldap_lockout_audit K { w with locked_time_code := 0 }
        { entry with locked_time := 0 } stamp status).calls.map Call.withoutLockTime ∧
    PrincipalStore.run K w stored (krb5_ldap_lockout_audit K w entry stamp status).calls =
      PrincipalStore.run K { w with locked_time_code := 0 } stored
        (krb5_ldap_lockout_audit K { w with locked_time_code := 0 }
          { entry with locked_time := 0 } stamp status).calls := by
  have hl : lookup_lockout_policy { w with locked_time_code := 0 } = lookup_lockout_policy w :=
    rfl
  have hf1 : (krb5_dbe_lookup_locked_time w entry).2 = 0 := by
    simp [krb5_dbe_lookup_locked_time, hfail]
  have hf2 : (krb5_dbe_lookup_locked_time { w with locked_time_code := 0 }
      { entry with locked_time := 0 }).2 = 0 := by
    simp [krb5_dbe_lookup_locked_time]
  have hs : ∀ (r : krb5_db_entry) (c : List Call),
      PrincipalStore.run K { w with locked_time_code := 0 } r c = PrincipalStore.run K w r c := by
    intro r c
    have hstep : PrincipalStore.step K { w with locked_time_code := 0 } =
        PrincipalStore.step K w := by
      funext r d
      cases d <;> rfl
    simp [PrincipalStore.run, hstep]
  rw [hs]
  by_cases hsw : status ≠ 0 ∧ status ≠ K.KRB5KDC_ERR_PREAUTH_FAILED ∧
      status ≠ K.KRB5KRB_AP_ERR_BAD_INTEGRITY
  · rw [audit_of_other_status K w entry stamp status hsw,
      audit_of_other_status K { w with locked_time_code := 0 }
        { entry with locked_time := 0 } stamp status hsw]
    exact ⟨rfl, by simp, rfl, rfl, rfl⟩
  · have hstatus : status = 0 ∨ status = K.KRB5KDC_ERR_PREAUTH_FAILED ∨
        status = K.KRB5KRB_AP_ERR_BAD_INTEGRITY := by
      by_cases h0 : status = 0
      · exact Or.inl h0
      · by_cases h1 : status = K.KRB5KDC_ERR_PREAUTH_FAILED
        · exact Or.inr (Or.inl h1)
        · by_cases h2 : status = K.KRB5KRB_AP_ERR_BAD_INTEGRITY
          · exact Or.inr (Or.inr h2)
          · exact absurd ⟨h0, h1, h2⟩ hsw
    by_cases hpol : (lookup_lockout_policy w).code = 0
    · have hw1 : locked_check_p stamp (krb5_dbe_lookup_locked_time w entry).2
          (lookup_lockout_policy w).lockout_duration = false := by
        rw [hf1]
        simp [locked_check_p]
      have hw2 : locked_check_p stamp (krb5_dbe_lookup_locked_time
          { w with locked_time_code := 0 } { entry with locked_time := 0 }).2
          (lookup_lockout_policy { w with locked_time_code := 0 }).lockout_duration = false := by
        rw [hf2]
        simp [locked_check_p]
      have hfr := audit_persist_lock_time_frame K w
        (audit_update K stamp status (lookup_lockout_policy w).max_fail
          (lookup_lockout_policy w).failcnt_interval { entry with mask := 0 } 0).1 stored
        (audit_update K stamp status (lookup_lockout_policy w).max_fail
          (lookup_lockout_policy w).failcnt_interval { entry with mask := 0 } 0).2
        (Call.lookup_locked_time :: (lookup_lockout_policy w).calls)
      have h1 : krb5_ldap_lockout_audit K w entry stamp status =
          audit_persist K w
            (audit_update K stamp status (lookup_lockout_policy w).max_fail
              (lookup_lockout_policy w).failcnt_interval { entry with mask := 0 } 0).1
            (audit_update K stamp status (lookup_lockout_policy w).max_fail
              (lookup_lockout_policy w).failcnt_interval { entry with mask := 0 } 0).2
            (Call.lookup_locked_time :: (lookup_lockout_policy w).calls) := by
        rw [audit_of_passed K w entry stamp status hstatus hpol hw1, hf1]
      have h2 : krb5_ldap_lockout_audit K { w with locked_time_code := 0 }
          { entry with locked_time := 0 } stamp status =
          audit_persist K w
            { (audit_update K stamp status (lookup_lockout_policy w).max_fail
                (lookup_lockout_policy w).failcnt_interval { entry with mask := 0 } 0).1 with
              locked_time := 0 }
            (audit_update K stamp status (lookup_lockout_policy w).max_fail
              (lookup_lockout_policy w).failcnt_interval { entry with mask := 0 } 0).2
            (Call.lookup_locked_time :: (lookup_lockout_policy w).calls) := by
        rw [audit_of_passed K { w with locked_time_code := 0 } { entry with locked_time := 0 }
          stamp status hstatus hpol hw2, hf2]
        have hu : audit_update K stamp status (lookup_lockout_policy w).max_fail
            (lookup_lockout_policy w).failcnt_interval
            { ({ entry with locked_time := 0 } : krb5_db_entry) with mask := 0 } 0 =
            ({ (audit_update K stamp status (lookup_lockout_policy w).max_fail
                  (lookup_lockout_policy w).failcnt_interval { entry with mask := 0 } 0).1 with
                locked_time := 0 },
              (audit_update K stamp status (lookup_lockout_policy w).max_fail
                (lookup_lockout_policy w).failcnt_interval { entry with mask := 0 } 0).2) :=
          audit_update_lock_time_frame K stamp status
            (lookup_lockout_policy w).max_fail (lookup_lockout_policy w).failcnt_interval
            { entry with mask := 0 } 0 0
        exact congrArg (fun p : krb5_db_entry × Int =>
          audit_persist K w p.1 p.2 (Call.lookup_locked_time :: (lookup_lockout_policy w).calls))
          hu
      rw [h1, h2]
      refine ⟨hfr.1, ?_, hfr.2.1, hfr.2.2.1, hfr.2.2.2⟩
      unfold audit_persist
      simp only []
      split_ifs <;> simp
    · rw [audit_of_policy_error K w entry stamp status hstatus hpol,
        audit_of_policy_error K { w with locked_time_code := 0 }
          { entry with locked_time := 0 } stamp status hstatus hpol]
      exact ⟨rfl, by simp, rfl, rfl, rfl⟩

/-- Witness of C13: the fetch fails for a principal locked at `100` for `60` seconds; a
failed preauthentication audited at `120` does not end on the assertion. -/
theorem audit_fetch_failure_as_absent_witness :
    (krb5_ldap_lockout_audit mitHeaders (World.fetchFails ⟨3, 0, 60⟩) ⟨128, 3, 99, 7, 0, 100⟩
      120 mitHeaders.KRB5KDC_ERR_PREAUTH_FAILED).outcome ≠ Outcome.assertion_failed :=
  (audit_fetch_failure_as_absent mitHeaders (World.fetchFails ⟨3, 0, 60⟩)
    ⟨128, 3, 99, 7, 0, 100⟩ ⟨128, 3, 99, 7, 0, 100⟩ 120
    mitHeaders.KRB5KDC_ERR_PREAUTH_FAILED (by decide)).2.1

/-! ## Where a lock time can go -/

/-- Lines 170-200 leave the lock time carried by the entry alone. -/
theorem audit_update_locked_time (K : Headers) (stamp status : Int) (max_fail : Nat)
    (failcnt_interval : Int) (e : krb5_db_entry) (lt : Int) :
    (audit_update K stamp status max_fail failcnt_interval e lt).1.locked_time =
      e.locked_time := by
  unfold audit_update
  simp only []
  split_ifs <;> rfl

/-- The local `locked_time` after lines 170-200. -/
theorem audit_update_snd (K : Headers) (stamp status : Int) (max_fail : Nat)
    (failcnt_interval : Int) (e : krb5_db_entry) (lt : Int) :
    (audit_update K stamp status max_fail failcnt_interval e lt).2 =
      if status = 0 ∧ e.attributes &&& K.KRB5_KDB_REQUIRES_PRE_AUTH ≠ 0 then 0
      else if status = K.KRB5KDC_ERR_PREAUTH_FAILED ∨
          status = K.KRB5KRB_AP_ERR_BAD_INTEGRITY then
        if failcnt_interval ≠ 0 ∧ stamp > add32 e.last_failed failcnt_interval then
          (if max_fail ≠ 0 ∧ 0 ≥ max_fail then stamp else 0)
        else if max_fail ≠ 0 ∧ e.fail_auth_count ≥ max_fail then stamp
        else lt
      else lt := by
  unfold audit_update
  simp only []
  split_ifs <;> simp_all

/-- The mask after lines 170-200. -/
theorem audit_update_mask (K : Headers) (stamp status : Int) (max_fail : Nat)
    (failcnt_interval : Int) (e : krb5_db_entry) (lt : Int) :
    (audit_update K stamp status max_fail failcnt_interval e lt).1.mask =
      if status = 0 ∧ e.attributes &&& K.KRB5_KDB_REQUIRES_PRE_AUTH ≠ 0 then
        (if lt ≠ 0 then e.mask ||| K.KADM5_LOCKED_TIME else e.mask) |||
          (K.KADM5_LAST_SUCCESS ||| K.KADM5_FAIL_AUTH_COUNT)
      else if status = K.KRB5KDC_ERR_PREAUTH_FAILED ∨
          status = K.KRB5KRB_AP_ERR_BAD_INTEGRITY then
        if failcnt_interval ≠ 0 ∧ stamp > add32 e.last_failed failcnt_interval then
          (if max_fail ≠ 0 ∧ 0 ≥ max_fail then
            ((e.mask ||| K.KADM5_LOCKED_TIME) |||
              (K.KADM5_LAST_FAILED ||| K.KADM5_FAIL_AUTH_COUNT_INCREMENT)) |||
              K.KADM5_LOCKED_TIME
          else
            (e.mask ||| K.KADM5_LOCKED_TIME) |||
              (K.KADM5_LAST_FAILED ||| K.KADM5_FAIL_AUTH_COUNT_INCREMENT))
        else if max_fail ≠ 0 ∧ e.fail_auth_count ≥ max_fail then
          (e.mask ||| (K.KADM5_LAST_FAILED ||| K.KADM5_FAIL_AUTH_COUNT_INCREMENT)) |||
            K.KADM5_LOCKED_TIME
        else e.mask ||| (K.KADM5_LAST_FAILED ||| K.KADM5_FAIL_AUTH_COUNT_INCREMENT)
      else e.mask := by
  unfold audit_update
  simp only []
  split_ifs <;> simp_all

/-- Lines 170-200, starting from an empty mask: when `KADM5_LOCKED_TIME` ends in the
mask, the local `locked_time` is `stamp` and a failure met the threshold, or it
is `0` and either a success of a principal requiring preauthentication or a
stale failure streak was recorded. -/
theorem audit_update_lock_time_cases (K : Headers) (hK : K.WellFormed) (stamp status : Int)
    (max_fail : Nat) (failcnt_interval : Int) (e : krb5_db_entry) (lt : Int)
    (he : e.mask = 0)
    (hm : (audit_update K stamp status max_fail failcnt_interval e lt).1.mask &&&
      K.KADM5_LOCKED_TIME ≠ 0) :
    ((audit_update K stamp status max_fail failcnt_interval e lt).2 = stamp ∧
      (status = K.KRB5KDC_ERR_PREAUTH_FAILED ∨ status = K.KRB5KRB_AP_ERR_BAD_INTEGRITY) ∧
      max_fail ≠ 0 ∧ e.fail_auth_count ≥ max_fail) ∨
    ((audit_update K stamp status max_fail failcnt_interval e lt).2 = 0 ∧
      ((status = 0 ∧ e.attributes &&& K.KRB5_KDB_REQUIRES_PRE_AUTH ≠ 0) ∨
        ((status = K.KRB5KDC_ERR_PREAUTH_FAILED ∨ status = K.KRB5KRB_AP_ERR_BAD_INTEGRITY) ∧
          failcnt_interval ≠ 0 ∧ stamp > add32 e.last_failed failcnt_interval))) := by
  have F := hK.facts
  rw [audit_update_mask, he] at hm
  rw [audit_update_snd]
  by_cases h1 : status = 0 ∧ e.attributes &&& K.KRB5_KDB_REQUIRES_PRE_AUTH ≠ 0
  · rw [if_pos h1]
    exact Or.inr ⟨rfl, Or.inl h1⟩
  · rw [if_neg h1] at hm ⊢
    by_cases h2 : status = K.KRB5KDC_ERR_PREAUTH_FAILED ∨
        status = K.KRB5KRB_AP_ERR_BAD_INTEGRITY
    · rw [if_pos h2] at hm ⊢
      by_cases hs : failcnt_interval ≠ 0 ∧ stamp > add32 e.last_failed failcnt_interval
      · have hh : ¬ (max_fail ≠ 0 ∧ 0 ≥ max_fail) := by omega
        rw [if_pos hs, if_neg hh]
        exact Or.inr ⟨rfl, Or.inr ⟨h2, hs.1, hs.2⟩⟩
      · rw [if_neg hs] at hm ⊢
        by_cases hh : max_fail ≠ 0 ∧ e.fail_auth_count ≥ max_fail
        · rw [if_pos hh]
          exact Or.inl ⟨rfl, h2, hh.1, hh.2⟩
        · rw [if_neg hh] at hm
          exfalso
          apply hm
          simp [and_or_eq_zero, F.LF_L, F.INC_L]
    · rw [if_neg h2] at hm
      simp at hm

/-- The masked update leaves the stored lock time alone when `KADM5_LOCKED_TIME` is
not in the mask, and sets it to the lock time of the entry when it is. -/
theorem applyPatch_locked_time (K : Headers) (e r : krb5_db_entry) :
    (PrincipalStore.applyPatch K e r).locked_time =
      if e.mask &&& K.KADM5_LOCKED_TIME ≠ 0 then e.locked_time else r.locked_time := by
  unfold PrincipalStore.applyPatch
  simp only []
  split_ifs <;> rfl

/-- After the writes of lines 202-215, made after calls that only read, the lock time
of the entry and of a stored record is what it was, or it is the local
`locked_time`, the latter only with `KADM5_LOCKED_TIME` in the mask. -/
theorem audit_persist_locked_time (K : Headers) (w : World) (e stored : krb5_db_entry)
    (lt : Int) (c : List Call) (hr : ∀ d ∈ c, d.isWrite = false) :
    ((audit_persist K w e lt c).entry.locked_time = e.locked_time ∨
      (e.mask &&& K.KADM5_LOCKED_TIME ≠ 0 ∧ (audit_persist K w e lt c).entry.locked_time = lt)) ∧
    ((PrincipalStore.run K w stored (audit_persist K w e lt c).calls).locked_time =
        stored.locked_time ∨
      (e.mask &&& K.KADM5_LOCKED_TIME ≠ 0 ∧
        (PrincipalStore.run K w stored (audit_persist K w e lt c).calls).locked_time = lt)) := by
  have hs : PrincipalStore.run K w stored c = stored := store_run_reads K w c stored hr
  by_cases hm : e.mask &&& K.KADM5_LOCKED_TIME = 0
  · rw [audit_persist_unlocked K w e lt c hm]
    by_cases hne : e.mask = 0
    · rw [if_neg (by simp [hne])]
      exact ⟨Or.inl rfl, Or.inl (by rw [hs])⟩
    · rw [if_pos hne]
      refine ⟨Or.inl rfl, Or.inl ?_⟩
      rw [store_run_append, hs]
      by_cases hp : w.put_principal_code = 0
      · simp [PrincipalStore.run, PrincipalStore.step, hp, applyPatch_locked_time, hm]
      · simp [PrincipalStore.run, PrincipalStore.step, hp]
  · rw [audit_persist_locked K w e lt c hm]
    by_cases hu : w.update_locked_time_code = 0
    · rw [if_neg (by simp [hu])]
      refine ⟨Or.inr ⟨hm, rfl⟩, Or.inr ⟨hm, ?_⟩⟩
      rw [store_run_append, hs]
      by_cases hp : w.put_principal_code = 0
      · simp [PrincipalStore.run, PrincipalStore.step, hu, hp, applyPatch_locked_time, hm]
      · simp [PrincipalStore.run, PrincipalStore.step, hu, hp]
    · rw [if_pos hu]
      refine ⟨Or.inl rfl, Or.inl ?_⟩
      rw [store_run_append, hs]
      simp [PrincipalStore.run, PrincipalStore.step, hu]

/-- After any call of `krb5_ldap_lockout_audit`, the lock time of the entry and of a
stored record is what it was, or it is `stamp` after a failure that met the
threshold, or it is `0` after the success of a principal requiring
preauthentication or after a stale failure streak. -/
theorem audit_locked_time_after (K : Headers) (hK : K.WellFormed) (w : World)
    (entry stored : krb5_db_entry) (stamp status : Int) (x : Int)
    (hx : x = (krb5_ldap_lockout_audit K w entry stamp status).entry.locked_time ∧
        entry.locked_time ≠ x ∨
      x = (PrincipalStore.run K w stored
          (krb5_ldap_lockout_audit K w entry stamp status).calls).locked_time ∧
        stored.locked_time ≠ x) :
    (x = stamp ∧
      (status = K.KRB5KDC_ERR_PREAUTH_FAILED ∨ status = K.KRB5KRB_AP_ERR_BAD_INTEGRITY) ∧
      (lookup_lockout_policy w).max_fail ≠ 0 ∧
      entry.fail_auth_count ≥ (lookup_lockout_policy w).max_fail) ∨
    (x = 0 ∧
      ((status = 0 ∧ entry.attributes &&& K.KRB5_KDB_REQUIRES_PRE_AUTH ≠ 0) ∨
        ((status = K.KRB5KDC_ERR_PREAUTH_FAILED ∨ status = K.KRB5KRB_AP_ERR_BAD_INTEGRITY) ∧
          (lookup_lockout_policy w).failcnt_interval ≠ 0 ∧
          stamp > add32 entry.last_failed (lookup_lockout_policy w).failcnt_interval))) := by
  have hreads := lookup_calls_read w
  have hsame : ∀ (r : AuditResult), r.entry = entry → (∀ d ∈ r.calls, d.isWrite = false) →
      ¬ (x = r.entry.locked_time ∧ entry.locked_time ≠ x ∨
        x = (PrincipalStore.run K w stored r.calls).locked_time ∧ stored.locked_time ≠ x) := by
    intro r he hr h
    rw [he, store_run_reads K w r.calls stored hr] at h
    rcases h with ⟨h1, h2⟩ | ⟨h1, h2⟩
    · exact h2 h1.symm
    · exact h2 h1.symm
  by_cases hsw : status ≠ 0 ∧ status ≠ K.KRB5KDC_ERR_PREAUTH_FAILED ∧
      status ≠ K.KRB5KRB_AP_ERR_BAD_INTEGRITY
  · rw [audit_of_other_status K w entry stamp status hsw] at hx
    exact absurd hx (hsame _ rfl (by simp))
  · have hstatus : status = 0 ∨ status = K.KRB5KDC_ERR_PREAUTH_FAILED ∨
        status = K.KRB5KRB_AP_ERR_BAD_INTEGRITY := by
      by_cases h0 : status = 0
      · exact Or.inl h0
      · by_cases h1 : status = K.KRB5KDC_ERR_PREAUTH_FAILED
        · exact Or.inr (Or.inl h1)
        · by_cases h2 : status = K.KRB5KRB_AP_ERR_BAD_INTEGRITY
          · exact Or.inr (Or.inr h2)
          · exact absurd ⟨h0, h1, h2⟩ hsw
    by_cases hpol : (lookup_lockout_policy w).code = 0
    · by_cases hwin : locked_check_p stamp (krb5_dbe_lookup_locked_time w entry).2
          (lookup_lockout_policy w).lockout_duration = true
      · rw [audit_of_locked K w entry stamp status hstatus hpol hwin] at hx
        exact absurd hx (hsame _ rfl hreads)
      · have hwin2 : locked_check_p stamp (krb5_dbe_lookup_locked_time w entry).2
            (lookup_lockout_policy w).lockout_duration = false := by
          simpa using hwin
        rw [audit_of_passed K w entry stamp status hstatus hpol hwin2] at hx
        have hp := audit_persist_locked_time K w
          (audit_update K stamp status (lookup_lockout_policy w).max_fail
            (lookup_lockout_policy w).failcnt_interval { entry with mask := 0 }
            (krb5_dbe_lookup_locked_time w entry).2).1 stored
          (audit_update K stamp status (lookup_lockout_policy w).max_fail
            (lookup_lockout_policy w).failcnt_interval { entry with mask := 0 }
            (krb5_dbe_lookup_locked_time w entry).2).2
          (Call.lookup_locked_time :: (lookup_lockout_policy w).calls) hreads
        have hlt := audit_update_locked_time K stamp status (lookup_lockout_policy w).max_fail
          (lookup_lockout_policy w).failcnt_interval { entry with mask := 0 }
          (krb5_dbe_lookup_locked_time w entry).2
        have hcases := audit_update_lock_time_cases K hK stamp status
          (lookup_lockout_policy w).max_fail (lookup_lockout_policy w).failcnt_interval
          { entry with mask := 0 } (krb5_dbe_lookup_locked_time w entry).2 rfl
        rw [hlt] at hp
        have hmx : (audit_update K stamp status (lookup_lockout_policy w).max_fail
            (lookup_lockout_policy w).failcnt_interval { entry with mask := 0 }
            (krb5_dbe_lookup_locked_time w entry).2).1.mask &&& K.KADM5_LOCKED_TIME ≠ 0 ∧
            x = (audit_update K stamp status (lookup_lockout_policy w).max_fail
              (lookup_lockout_policy w).failcnt_interval { entry with mask := 0 }
              (krb5_dbe_lookup_locked_time w entry).2).2 := by
          rcases hx with ⟨h1, h2⟩ | ⟨h1, h2⟩
          · rcases hp.1 with h | ⟨hm, h⟩
            · exact absurd (h1.trans h).symm h2
            · exact ⟨hm, h1.trans h⟩
          · rcases hp.2 with h | ⟨hm, h⟩
            · exact absurd (h1.trans h).symm h2
            · exact ⟨hm, h1.trans h⟩
        rw [hmx.2]
        exact hcases hmx.1
    · rw [audit_of_policy_error K w entry stamp status hstatus hpol] at hx
      exact absurd hx (hsame _ rfl hreads)

/-- The calls of `krb5_ldap_lockout_check_policy` only read. -/
theorem check_policy_calls_read (K : Headers) (w : World) (entry : krb5_db_entry) (stamp : Int) :
    ∀ c ∈ (krb5_ldap_lockout_check_policy K w entry stamp).calls, c.isWrite = false := by
  have hreads := lookup_calls_read w
  unfold krb5_ldap_lockout_check_policy
  simp only []
  split_ifs
  · simp [Call.isWrite]
  · exact hreads
  · exact hreads
  · exact hreads

/-- C15 (amended). For every call of `krb5_ldap_lockout_audit`: if the lock time of the
entry, or of a stored record, is not `0` before the call and is `0` after it,
then the status is `0` and the principal requires preauthentication, or the
status is one of the two failures, `failcnt_interval` is not `0` and `stamp` is
above `last_failed + failcnt_interval` (the 32-bit sum the code computes), or
the status is one of the two failures, `stamp` is `0` and the threshold is met
(`max_fail` is not `0` and `fail_auth_count` is at least `max_fail`), the lock
time written being that stamp. And `krb5_ldap_lockout_check_policy` makes no
writing call and leaves any stored record as it is, whatever `stamp` is. -/
theorem audit_lock_removal_cases (K : Headers) (hK : K.WellFormed)
    (w : World) (entry stored : krb5_db_entry) (stamp status : Int) :
    (((entry.locked_time ≠ 0 ∧
          (krb5_ldap_lockout_audit K w entry stamp status).entry.locked_time = 0) ∨
        (stored.locked_time ≠ 0 ∧
          (PrincipalStore.run K w stored
            (krb5_ldap_lockout_audit K w entry stamp status).calls).locked_time = 0)) →
      ((status = 0 ∧ entry.attributes &&& K.KRB5_KDB_REQUIRES_PRE_AUTH ≠ 0) ∨
        ((status = K.KRB5KDC_ERR_PREAUTH_FAILED ∨ status = K.KRB5KRB_AP_ERR_BAD_INTEGRITY) ∧
          (lookup_lockout_policy w).failcnt_interval ≠ 0 ∧
          stamp > add32 entry.last_failed (lookup_lockout_policy w).failcnt_interval) ∨
        (stamp = 0 ∧
          (status = K.KRB5KDC_ERR_PREAUTH_FAILED ∨ status = K.KRB5KRB_AP_ERR_BAD_INTEGRITY) ∧
          (lookup_lockout_policy w).max_fail ≠ 0 ∧
          entry.fail_auth_count ≥ (lookup_lockout_policy w).max_fail))) ∧
    (∀ c ∈ (krb5_ldap_lockout_check_policy K w entry stamp).calls, c.isWrite = false) ∧
    PrincipalStore.run K w stored (krb5_ldap_lockout_check_policy K w entry stamp).calls =
      stored := by
  refine ⟨?_, check_policy_calls_read K w entry stamp,
    store_run_reads K w _ stored (check_policy_calls_read K w entry stamp)⟩
  intro hrem
  have hx : (0 : Int) = (krb5_ldap_lockout_audit K w entry stamp status).entry.locked_time ∧
        entry.locked_time ≠ 0 ∨
      (0 : Int) = (PrincipalStore.run K w stored
          (krb5_ldap_lockout_audit K w entry stamp status).calls).locked_time ∧
        stored.locked_time ≠ 0 := by
    rcases hrem with ⟨h1, h2⟩ | ⟨h1, h2⟩
    · exact Or.inl ⟨h2.symm, h1⟩
    · exact Or.inr ⟨h2.symm, h1⟩
  rcases audit_locked_time_after K hK w entry stored stamp status 0 hx with
    ⟨h, hf, hm1, hm2⟩ | ⟨_, h | h⟩
  · exact Or.inr (Or.inr ⟨h.symm, hf, hm1, hm2⟩)
  · exact Or.inl h
  · exact Or.inr (Or.inl h)

/-- Witness of C15 (amended): a stale lock at `100` is removed by the audit, at `500`, of a
success of a principal that requires preauthentication. -/
theorem audit_lock_removal_cases_witness :
    ((0 : Int) = 0 ∧ 128 &&& mitHeaders.KRB5_KDB_REQUIRES_PRE_AUTH ≠ 0) ∨
      (((0 : Int) = mitHeaders.KRB5KDC_ERR_PREAUTH_FAILED ∨
          (0 : Int) = mitHeaders.KRB5KRB_AP_ERR_BAD_INTEGRITY) ∧
        (lookup_lockout_policy (World.withPolicy ⟨3, 0, 60⟩)).failcnt_interval ≠ 0 ∧
        500 > add32 99 (lookup_lockout_policy (World.withPolicy ⟨3, 0, 60⟩)).failcnt_interval) ∨
      ((500 : Int) = 0 ∧
        ((0 : Int) = mitHeaders.KRB5KDC_ERR_PREAUTH_FAILED ∨
          (0 : Int) = mitHeaders.KRB5KRB_AP_ERR_BAD_INTEGRITY) ∧
        (lookup_lockout_policy (World.withPolicy ⟨3, 0, 60⟩)).max_fail ≠ 0 ∧
        3 ≥ (lookup_lockout_policy (World.withPolicy ⟨3, 0, 60⟩)).max_fail) :=
  (audit_lock_removal_cases mitHeaders mitHeaders_wellFormed
    (World.withPolicy ⟨3, 0, 60⟩) ⟨128, 3, 99, 7, 0, 100⟩ ⟨128, 3, 99, 7, 0, 100⟩ 500 0).1
    (Or.inl (by decide))

/-- Counterexample to C15 as stated, in three runs of a failed preauthentication that
remove a stored lock time although the status is not `0` and `stamp` is not above
the plain sum `last_failed + failcnt_interval`. In the first two, audited at
`stamp = 0` with `max_fail = 1`, one earlier failure and no failure-count
interval, the threshold is met and the lock time written is the stamp, `0`: a
stored lock time of `100` (the fetch failing) or of `-100` (every helper
succeeding, the window of `60` being over) is removed. In the third,
`last_failed = 1700000000` and `failcnt_interval = 500000000`: the 32-bit sum
wraps below `stamp = 1700000100`, the stale-streak reset fires and removes the
lock time `1600000000`. -/
theorem audit_removes_lock_outside_two_transitions :
    mitHeaders.KRB5KDC_ERR_PREAUTH_FAILED ≠ 0 ∧
    (lookup_lockout_policy (World.fetchFails ⟨1, 0, 60⟩)).failcnt_interval = 0 ∧
    audit_session mitHeaders (World.fetchFails ⟨1, 0, 60⟩) ⟨0, 1, 0, 0, 0, 100⟩ 0
      mitHeaders.KRB5KDC_ERR_PREAUTH_FAILED = (Outcome.returned 0, ⟨0, 2, 0, 0, 0, 0⟩) ∧
    (lookup_lockout_policy (World.withPolicy ⟨1, 0, 60⟩)).failcnt_interval = 0 ∧
    audit_session mitHeaders (World.withPolicy ⟨1, 0, 60⟩) ⟨0, 1, -200, 0, 0, -100⟩ 0
      mitHeaders.KRB5KDC_ERR_PREAUTH_FAILED = (Outcome.returned 0, ⟨0, 2, 0, 0, 0, 0⟩) ∧
    (lookup_lockout_policy (World.withPolicy ⟨3, 500000000, 60⟩)).failcnt_interval =
      500000000 ∧
    ¬ ((1700000100 : Int) > 1700000000 + 500000000) ∧
    audit_session mitHeaders (World.withPolicy ⟨3, 500000000, 60⟩)
      ⟨0, 2, 1700000000, 0, 0, 1600000000⟩ 1700000100
      mitHeaders.KRB5KDC_ERR_PREAUTH_FAILED =
        (Outcome.returned 0, ⟨0, 3, 1700000100, 0, 0, 0⟩) := by
  decide

/-! ## The change mask -/

/-- The writes of lines 202-215 leave the mask of the entry as it is. -/
theorem audit_persist_mask (K : Headers) (w : World) (e : krb5_db_entry) (lt : Int)
    (c : List Call) : (audit_persist K w e lt c).entry.mask = e.mask := by
  unfold audit_persist krb5_dbe_update_locked_time
  simp only []
  split_ifs <;> rfl

/-- Which writes lines 202-215 make after calls that only read: the lock-time update
exactly when `KADM5_LOCKED_TIME` is in the mask; the entry write exactly when the
mask is not `0` and the lock-time update, if made, succeeded; and the entry
written carries the mask. -/
theorem audit_persist_writes (K : Headers) (w : World) (e : krb5_db_entry) (lt : Int)
    (c : List Call) (hr : ∀ d ∈ c, d.isWrite = false) :
    ((∃ t, Call.update_locked_time t ∈ (audit_persist K w e lt c).calls) ↔
      e.mask &&& K.KADM5_LOCKED_TIME ≠ 0) ∧
    ((∃ d, Call.put_principal d ∈ (audit_persist K w e lt c).calls) ↔
      (e.mask ≠ 0 ∧ (e.mask &&& K.KADM5_LOCKED_TIME ≠ 0 → w.update_locked_time_code = 0))) ∧
    (∀ d, Call.put_principal d ∈ (audit_persist K w e lt c).calls → d.mask = e.mask) := by
  have hnu : ∀ t, Call.update_locked_time t ∉ c := fun t h => by
    have := hr _ h
    simp [Call.isWrite] at this
  have hnp : ∀ d, Call.put_principal d ∉ c := fun d h => by
    have := hr _ h
    simp [Call.isWrite] at this
  by_cases hm : e.mask &&& K.KADM5_LOCKED_TIME = 0
  · rw [audit_persist_unlocked K w e lt c hm]
    by_cases hne : e.mask = 0
    · rw [if_neg (by simp [hne])]
      refine ⟨?_, ?_, ?_⟩
      · simp [hm, hnu]
      · simp [hne, hnp]
      · intro d hd
        exact absurd hd (hnp d)
    · rw [if_pos hne]
      refine ⟨?_, ?_, ?_⟩
      · simp [hm, hnu]
      · simp [hm, hne]
      · intro d hd
        rw [mem_append_reads_iff _ _ (Call.put_principal d) hr rfl] at hd
        simp at hd
        rw [hd]
  · have hne : e.mask ≠ 0 := by
      intro h
      rw [h, Nat.zero_and] at hm
      exact hm rfl
    rw [audit_persist_locked K w e lt c hm]
    by_cases hu : w.update_locked_time_code = 0
    · rw [if_neg (by simp [hu])]
      refine ⟨?_, ?_, ?_⟩
      · simp [hm]
      · simp [hm, hne, hu]
      · intro d hd
        rw [mem_append_reads_iff _ _ (Call.put_principal d) hr rfl] at hd
        simp at hd
        rw [hd]
    · rw [if_pos hu]
      refine ⟨?_, ?_, ?_⟩
      · simp [hm]
      · simp [hm, hu, hnp]
      · intro d hd
        rw [mem_append_reads_iff _ _ (Call.put_principal d) hr rfl] at hd
        simp at hd

/-- C17 (amended). For every call of `krb5_ldap_lockout_audit` with a recognised status that
resolves the policy and passes the assertion, the mask the entry leaves with does
not depend on the mask it came with and is exactly: `0` for status `0` without
`KRB5_KDB_REQUIRES_PRE_AUTH`; `KADM5_LAST_SUCCESS | KADM5_FAIL_AUTH_COUNT`, plus
`KADM5_LOCKED_TIME` exactly when the lock time the fetch handed over is not `0`
(a failed fetch hands over `0`), for status `0` with it;
`KADM5_LAST_FAILED | KADM5_FAIL_AUTH_COUNT_INCREMENT`, plus `KADM5_LOCKED_TIME`
exactly when the stale-streak reset fired or the threshold was met, for the two
failures. `KADM5_FAIL_AUTH_COUNT` and `KADM5_FAIL_AUTH_COUNT_INCREMENT` are never
both in it; `krb5_dbe_update_locked_time` is called exactly when
`KADM5_LOCKED_TIME` is in it; `krb5_ldap_put_principal` is called exactly when
it is not `0` and the lock-time update, if made, succeeded; and the entry handed
to `krb5_ldap_put_principal` carries it. -/
theorem audit_change_mask (K : Headers) (hK : K.WellFormed) (w : World)
    (entry : krb5_db_entry) (stamp status : Int)
    (hstatus : status = 0 ∨ status = K.KRB5KDC_ERR_PREAUTH_FAILED ∨
      status = K.KRB5KRB_AP_ERR_BAD_INTEGRITY)
    (hpol : (lookup_lockout_policy w).code = 0)
    (hwin : locked_check_p stamp (krb5_dbe_lookup_locked_time w entry).2
      (lookup_lockout_policy w).lockout_duration = false) :
    (krb5_ldap_lockout_audit K w entry stamp status).entry.mask =
      (if status = 0 then
        if entry.attributes &&& K.KRB5_KDB_REQUIRES_PRE_AUTH ≠ 0 then
          if (krb5_dbe_lookup_locked_time w entry).2 ≠ 0 then
            K.KADM5_LOCKED_TIME ||| (K.KADM5_LAST_SUCCESS ||| K.KADM5_FAIL_AUTH_COUNT)
          else K.KADM5_LAST_SUCCESS ||| K.KADM5_FAIL_AUTH_COUNT
        else 0
      else if ((lookup_lockout_policy w).failcnt_interval ≠ 0 ∧
            stamp > add32 entry.last_failed (lookup_lockout_policy w).failcnt_interval) ∨
          ((lookup_lockout_policy w).max_fail ≠ 0 ∧
            entry.fail_auth_count ≥ (lookup_lockout_policy w).max_fail) then
        K.KADM5_LOCKED_TIME |||
          (K.KADM5_LAST_FAILED ||| K.KADM5_FAIL_AUTH_COUNT_INCREMENT)
      else K.KADM5_LAST_FAILED ||| K.KADM5_FAIL_AUTH_COUNT_INCREMENT) ∧
    ((krb5_ldap_lockout_audit K w entry stamp status).entry.mask &&&
        K.KADM5_FAIL_AUTH_COUNT = 0 ∨
      (krb5_ldap_lockout_audit K w entry stamp status).entry.mask &&&
        K.KADM5_FAIL_AUTH_COUNT_INCREMENT = 0) ∧
    ((∃ t, Call.update_locked_time t ∈
        (krb5_ldap_lockout_audit K w entry stamp status).calls) ↔
      (krb5_ldap_lockout_audit K w entry stamp status).entry.mask &&&
        K.KADM5_LOCKED_TIME ≠ 0) ∧
    ((∃ e, Call.put_principal e ∈ (krb5_ldap_lockout_audit K w entry stamp status).calls) ↔
      ((krb5_ldap_lockout_audit K w entry stamp status).entry.mask ≠ 0 ∧
        ((krb5_ldap_lockout_audit K w entry stamp status).entry.mask &&&
            K.KADM5_LOCKED_TIME ≠ 0 → w.update_locked_time_code = 0))) ∧
    (∀ e, Call.put_principal e ∈ (krb5_ldap_lockout_audit K w entry stamp status).calls →
      e.mask = (krb5_ldap_lockout_audit K w entry stamp status).entry.mask) := by
  have F := hK.facts
  have hpf : K.KRB5KDC_ERR_PREAUTH_FAILED ≠ 0 := hK.2.1
  have hbi : K.KRB5KRB_AP_ERR_BAD_INTEGRITY ≠ 0 := hK.2.2.1
  have hreads := lookup_calls_read w
  have hw := audit_persist_writes K w
    (audit_update K stamp status (lookup_lockout_policy w).max_fail
      (lookup_lockout_policy w).failcnt_interval { entry with mask := 0 }
      (krb5_dbe_lookup_locked_time w entry).2).1
    (audit_update K stamp status (lookup_lockout_policy w).max_fail
      (lookup_lockout_policy w).failcnt_interval { entry with mask := 0 }
      (krb5_dbe_lookup_locked_time w entry).2).2
    (Call.lookup_locked_time :: (lookup_lockout_policy w).calls) hreads
  have hmask : (krb5_ldap_lockout_audit K w entry stamp status).entry.mask =
      (audit_update K stamp status (lookup_lockout_policy w).max_fail
        (lookup_lockout_policy w).failcnt_interval { entry with mask := 0 }
        (krb5_dbe_lookup_locked_time w entry).2).1.mask := by
    rw [audit_of_passed K w entry stamp status hstatus hpol hwin, audit_persist_mask]
  have hcalls : (krb5_ldap_lockout_audit K w entry stamp status).calls =
      (audit_persist K w
        (audit_update K stamp status (lookup_lockout_policy w).max_fail
          (lookup_lockout_policy w).failcnt_interval { entry with mask := 0 }
          (krb5_dbe_lookup_locked_time w entry).2).1
        (audit_update K stamp status (lookup_lockout_policy w).max_fail
          (lookup_lockout_policy w).failcnt_interval { entry with mask := 0 }
          (krb5_dbe_lookup_locked_time w entry).2).2
        (Call.lookup_locked_time :: (lookup_lockout_policy w).calls)).calls := by
    rw [audit_of_passed K w entry stamp status hstatus hpol hwin]
  have hval : (audit_update K stamp status (lookup_lockout_policy w).max_fail
      (lookup_lockout_policy w).failcnt_interval { entry with mask := 0 }
      (krb5_dbe_lookup_locked_time w entry).2).1.mask =
      (if status = 0 then
        if entry.attributes &&& K.KRB5_KDB_REQUIRES_PRE_AUTH ≠ 0 then
          if (krb5_dbe_lookup_locked_time w entry).2 ≠ 0 then
            K.KADM5_LOCKED_TIME ||| (K.KADM5_LAST_SUCCESS ||| K.KADM5_FAIL_AUTH_COUNT)
          else K.KADM5_LAST_SUCCESS ||| K.KADM5_FAIL_AUTH_COUNT
        else 0
      else if ((lookup_lockout_policy w).failcnt_interval ≠ 0 ∧
            stamp > add32 entry.last_failed (lookup_lockout_policy w).failcnt_interval) ∨
          ((lookup_lockout_policy w).max_fail ≠ 0 ∧
            entry.fail_auth_count ≥ (lookup_lockout_policy w).max_fail) then
        K.KADM5_LOCKED_TIME |||
          (K.KADM5_LAST_FAILED ||| K.KADM5_FAIL_AUTH_COUNT_INCREMENT)
      else K.KADM5_LAST_FAILED ||| K.KADM5_FAIL_AUTH_COUNT_INCREMENT) := by
    rw [audit_update_mask]
    dsimp only
    by_cases h0 : status = 0
    · have hn : ¬ (status = K.KRB5KDC_ERR_PREAUTH_FAILED ∨
          status = K.KRB5KRB_AP_ERR_BAD_INTEGRITY) := by
        rw [h0]
        rintro (h | h)
        · exact hpf h.symm
        · exact hbi h.symm
      by_cases hp : entry.attributes &&& K.KRB5_KDB_REQUIRES_PRE_AUTH ≠ 0
      · rw [if_pos ⟨h0, hp⟩, if_pos h0, if_pos hp]
        by_cases hl : (krb5_dbe_lookup_locked_time w entry).2 ≠ 0
        · rw [if_pos hl, if_pos hl, Nat.zero_or]
        · rw [if_neg hl, if_neg hl, Nat.zero_or]
      · rw [if_neg (fun h => hp h.2), if_neg hn, if_pos h0, if_neg hp]
    · have hf : status = K.KRB5KDC_ERR_PREAUTH_FAILED ∨
          status = K.KRB5KRB_AP_ERR_BAD_INTEGRITY := by
        rcases hstatus with h | h | h
        · exact absurd h h0
        · exact Or.inl h
        · exact Or.inr h
      rw [if_neg (fun h => h0 h.1), if_pos hf, if_neg h0]
      by_cases hs : (lookup_lockout_policy w).failcnt_interval ≠ 0 ∧
          stamp > add32 entry.last_failed (lookup_lockout_policy w).failcnt_interval
      · have hh : ¬ ((lookup_lockout_policy w).max_fail ≠ 0 ∧
            0 ≥ (lookup_lockout_policy w).max_fail) := by omega
        rw [if_pos hs, if_neg hh, if_pos (Or.inl hs), Nat.zero_or]
      · by_cases hh : (lookup_lockout_policy w).max_fail ≠ 0 ∧
            entry.fail_auth_count ≥ (lookup_lockout_policy w).max_fail
        · rw [if_neg hs, if_pos hh, if_pos (Or.inr hh), Nat.zero_or, Nat.or_comm]
        · rw [if_neg hs, if_neg hh, if_neg (not_or.mpr ⟨hs, hh⟩), Nat.zero_or]
  rw [hmask, hcalls]
  refine ⟨hval, ?_, hw.1, hw.2.1, hw.2.2⟩
  rw [hval]
  by_cases h0 : status = 0
  · right
    simp only [h0, if_true]
    split_ifs <;> simp [and_or_eq_zero, F.L_INC, F.LS_INC, F.FC_INC]
  · left
    simp only [h0, if_false]
    split_ifs <;> simp [and_or_eq_zero, F.L_FC, F.LF_FC, F.INC_FC]

/-- Witness of C17 (amended): the third of three failures with `max_fail = 3`. -/
theorem audit_change_mask_witness :
    (krb5_ldap_lockout_audit mitHeaders (World.withPolicy ⟨3, 0, 60⟩) ⟨0, 2, 1, 0, 7, 0⟩ 2
        mitHeaders.KRB5KDC_ERR_PREAUTH_FAILED).entry.mask &&&
      mitHeaders.KADM5_FAIL_AUTH_COUNT = 0 ∨
    (krb5_ldap_lockout_audit mitHeaders (World.withPolicy ⟨3, 0, 60⟩) ⟨0, 2, 1, 0, 7, 0⟩ 2
        mitHeaders.KRB5KDC_ERR_PREAUTH_FAILED).entry.mask &&&
      mitHeaders.KADM5_FAIL_AUTH_COUNT_INCREMENT = 0 :=
  (audit_change_mask mitHeaders mitHeaders_wellFormed (World.withPolicy ⟨3, 0, 60⟩)
    ⟨0, 2, 1, 0, 7, 0⟩ 2 mitHeaders.KRB5KDC_ERR_PREAUTH_FAILED (Or.inr (Or.inl rfl))
    (by decide) (by decide)).2.1

/-- Counterexample to C17 as stated, in two runs that resolve the policy and pass the
assertion. First, a success of a principal that requires preauthentication and
carries the lock time `100`, the fetch failing: `KADM5_LOCKED_TIME` is not in the
mask although a lock time was set. Second, a stale failure streak with a
failing `krb5_dbe_update_locked_time`: the mask is not `0` and
`krb5_ldap_put_principal` is not called, the only write being the lock-time
update. -/
theorem audit_change_mask_corners :
    (krb5_ldap_lockout_audit mitHeaders (World.fetchFails ⟨3, 0, 60⟩) ⟨128, 3, 99, 7, 0, 100⟩
      200 0).outcome = Outcome.returned 0 ∧
    (⟨128, 3, 99, 7, 0, 100⟩ : krb5_db_entry).locked_time ≠ 0 ∧
    (krb5_ldap_lockout_audit mitHeaders (World.fetchFails ⟨3, 0, 60⟩) ⟨128, 3, 99, 7, 0, 100⟩
      200 0).entry.mask &&& mitHeaders.KADM5_LOCKED_TIME = 0 ∧
    (lookup_lockout_policy (World.updateFails ⟨3, 30, 60⟩)).code = 0 ∧
    locked_check_p 40 0 60 = false ∧
    (krb5_ldap_lockout_audit mitHeaders (World.updateFails ⟨3, 30, 60⟩) ⟨0, 2, 0, 0, 0, 0⟩ 40
      mitHeaders.KRB5KRB_AP_ERR_BAD_INTEGRITY).entry.mask = 1605632 ∧
    (krb5_ldap_lockout_audit mitHeaders (World.updateFails ⟨3, 30, 60⟩) ⟨0, 2, 0, 0, 0, 0⟩ 40
      mitHeaders.KRB5KRB_AP_ERR_BAD_INTEGRITY).calls.filter Call.isWrite =
        [Call.update_locked_time 0] := by
  decide

end Lockout

namespace UtilSeed

/-! ## `kg_make_seed` -/


theorem foldl_set_contents (f : Nat → Nat) (k : Nat) (t : krb5_keyblock) :
    ((List.range k).foldl (fun t i => { t with contents := t.contents.set i (f i) }) t) =
      { t with contents :=
          (List.range k).foldl (fun l i => l.set i (f i)) t.contents } := by
  induction k with
  | zero => rfl
  | succ k ih =>
    rw [List.range_succ, List.foldl_append, List.foldl_append, ih]
    rfl

theorem foldl_set_spec (f : Nat → Nat) (l : List Nat) (k : Nat) (hk : k ≤ l.length) :
    ((List.range k).foldl (fun l i => l.set i (f i)) l).length = l.length ∧
    ∀ i, ((List.range k).foldl (fun l i => l.set i (f i)) l).getD i 0 =
      if i < k then f i else l.getD i 0 := by
  induction k with
  | zero => simp
  | succ k ih =>
    have ih2 := ih (by omega)
    rw [List.range_succ, List.foldl_append]
    simp only [List.foldl_cons, List.foldl_nil, List.length_set]
    refine ⟨ih2.1, ?_⟩
    intro i
    by_cases hik : i = k
    · subst hik
      have hil : i < l.length := by omega
      simp [List.getD_eq_getElem?_getD, List.getElem?_set, ih2.1, hil]
    · rw [List.getD_eq_getElem?_getD, List.getElem?_set_ne (Ne.symm hik),
        ← List.getD_eq_getElem?_getD, ih2.2 i]
      by_cases hlt : i < k
      · simp [hlt, Nat.lt_succ_of_lt hlt]
      · have : ¬ i < k + 1 := by omega
        simp [hlt, this]


theorem usub32_index (n i : Nat) (hn : n < 2147483648) (hi : i < n) :
    usub32 (usub32 n 1) i = n - 1 - i := by
  unfold usub32
  omega

/-- The loop of lines 49-50 on a copy of the key leaves the bytes of the key in reverse order. -/
theorem reverse_key_bytes_eq (key : krb5_keyblock) (hn : key.contents.length < 2147483648) :
    reverse_key_bytes key key = { key with contents := key.contents.reverse } := by
  unfold reverse_key_bytes krb5_keyblock.length
  rw [foldl_set_contents (fun i => key.contents.getD (usub32 (usub32 key.contents.length 1) i) 0)]
  have hs := foldl_set_spec
    (fun i => key.contents.getD (usub32 (usub32 key.contents.length 1) i) 0)
    key.contents key.contents.length (Nat.le_refl _)
  congr 1
  apply List.ext_getElem
  · rw [hs.1, List.length_reverse]
  · intro i h1 h2
    have hi : i < key.contents.length := by rw [hs.1] at h1; exact h1
    have h := hs.2 i
    simp only [hi, if_true, usub32_index _ _ hn hi] at h
    rw [List.getD_eq_getElem _ _ h1, List.getD_eq_getElem _ _ (by omega)] at h
    rw [h, List.getElem_reverse]

/-- C18. For every key of fewer than `2^31` bytes: when `krb5_copy_keyblock` succeeds,
`kg_make_seed` calls `kg_encrypt` with the key whose bytes are those of the input
key in reverse order (same length, byte `i` being byte `length - 1 - i` of the
input, and the loop run again on it giving the input key back), with the
all-zero block and the length `16`, and returns the code of `kg_encrypt`; when
`krb5_copy_keyblock` fails, it returns that code and `kg_encrypt` is not
called. The key of the caller is unchanged either way. -/
theorem kg_make_seed_reverses_key (h : Helpers) (key : krb5_keyblock)
    (hn : key.contents.length < 2147483648) :
    (h.copy_code = 0 →
      (kg_make_seed h key).encrypt_call =
        some ({ key with contents := key.contents.reverse }, List.replicate 16 0, 16) ∧
      (reverse_key_bytes key key).length = key.length ∧
      (∀ i, i < key.length →
        (reverse_key_bytes key key).contents.getD i 0 =
          key.contents.getD (key.length - 1 - i) 0) ∧
      reverse_key_bytes (reverse_key_bytes key key) (reverse_key_bytes key key) = key ∧
      (kg_make_seed h key).code =
        (h.kg_encrypt { key with contents := key.contents.reverse }
          (List.replicate 16 0) 16).1 ∧
      (kg_make_seed h key).seed =
        some (h.kg_encrypt { key with contents := key.contents.reverse }
          (List.replicate 16 0) 16).2 ∧
      (kg_make_seed h key).key = key) ∧
    (h.copy_code ≠ 0 →
      (kg_make_seed h key).code = h.copy_code ∧
      (kg_make_seed h key).encrypt_call = none ∧
      (kg_make_seed h key).key = key) := by
  have hrev := reverse_key_bytes_eq key hn
  have hz : zeros = List.replicate 16 0 := by decide
  constructor
  · intro hc
    have hres : kg_make_seed h key =
        ⟨(h.kg_encrypt { key with contents := key.contents.reverse } (List.replicate 16 0) 16).1,
          key,
          some ({ key with contents := key.contents.reverse }, List.replicate 16 0, 16),
          some (h.kg_encrypt { key with contents := key.contents.reverse }
            (List.replicate 16 0) 16).2⟩ := by
      simp [kg_make_seed, krb5_copy_keyblock, hc, hrev, hz]
    have hrev2 : reverse_key_bytes { key with contents := key.contents.reverse }
        { key with contents := key.contents.reverse } = key := by
      rw [reverse_key_bytes_eq _ (by simpa using hn)]
      simp
    rw [hres, hrev]
    refine ⟨rfl, ?_, ?_, hrev2, rfl, rfl, rfl⟩
    · simp [krb5_keyblock.length]
    · intro i hi
      unfold krb5_keyblock.length at hi ⊢
      rw [List.getD_eq_getElem _ _ (by simpa using hi), List.getD_eq_getElem _ _ (by omega),
        List.getElem_reverse]
  · intro hc
    simp [kg_make_seed, krb5_copy_keyblock, hc]

/-- Witness of C18: the key bytes `1, 2, 3` reach `kg_encrypt` as `3, 2, 1`. -/
theorem kg_make_seed_reverses_key_witness :
    (kg_make_seed sampleHelpers ⟨0, 1, [1, 2, 3]⟩).encrypt_call =
      some (⟨0, 1, [3, 2, 1]⟩, List.replicate 16 0, 16) :=
  ((kg_make_seed_reverses_key sampleHelpers ⟨0, 1, [1, 2, 3]⟩ (by decide)).1 rfl).1

end UtilSeed
